import Mathlib

/-!
Verification of the `setup_claude_tasks.py` installer (repository
`foolishimp/claude_init`).

The script is sequential file-system orchestration, so we use a shallow
embedding: the file system is a finite association list from paths (lists of
name components) to file contents, together with a list of directories.
Every method of the Python class `ClaudeTasksSetup` is translated to a Lean
function over this state.  External collaborators are parameters:

* the clock (`Env.today`, the result of `datetime.now().strftime("%Y-%m-%d")`);
* `tempfile.mkdtemp` (`Env.tempDir`, the fresh scratch path it allocates);
* `git clone` (`Env.cloneRepo`, returning the cloned tree or a failure, which
  models `subprocess.run(["git", "clone", ...], check=True)` raising
  `CalledProcessError`);
* `npm install` (`_install_node_dependencies` is soft-failing in the script and
  never touches the files the script itself manages, so it is modelled as the
  identity on the file-system state).

Exceptions are modelled with `Except`; a raised error carries the file-system
state at the moment it propagates.
-/

set_option maxRecDepth 100000

namespace ClaudeInit

/-- A path is the list of its name components (relative to the file-system
root of the model). -/
abbrev Path := List String

/-- File-system state: an association list of files (first match wins, writes
remove stale keys) plus the set of directories that exist. -/
structure FS where
  files : List (Path × String)
  dirs : List Path
deriving DecidableEq, Repr

/-- First-match lookup of a file's content. -/
def lookupFile : List (Path × String) → Path → Option String
  | [], _ => none
  | e :: rest, p => if e.1 = p then some e.2 else lookupFile rest p

/-- Remove every entry whose key is the given path. -/
def removeKey : List (Path × String) → Path → List (Path × String)
  | [], _ => []
  | e :: rest, p => if e.1 = p then removeKey rest p else e :: removeKey rest p

/-- Boolean membership of a path in a list of paths. -/
def pathMem (p : Path) : List Path → Bool
  | [] => false
  | q :: rest => decide (q = p) || pathMem p rest

/-- `pathLE p q` holds when `p` is a (not necessarily proper) prefix of `q`,
i.e. `q` lies at or below `p` in the directory tree. -/
def pathLE : Path → Path → Bool
  | [], _ => true
  | _ :: _, [] => false
  | a :: p, b :: q => if a = b then pathLE p q else false

/-- A file exists at the path. -/
def isFileB (fs : FS) (p : Path) : Bool :=
  (lookupFile fs.files p).isSome

/-- `Path.exists()`: a file or a directory is present at the path. -/
def pathExists (fs : FS) (p : Path) : Bool :=
  isFileB fs p || pathMem p fs.dirs

/-- `path.write_text(content)`: create or overwrite a file. -/
def writeText (fs : FS) (p : Path) (content : String) : FS :=
  ⟨(p, content) :: removeKey fs.files p, fs.dirs⟩

/-- `path.mkdir(exist_ok=True)`: create the directory unless the path already
exists. -/
def mkdirD (fs : FS) (p : Path) : FS :=
  if pathExists fs p then fs else ⟨fs.files, p :: fs.dirs⟩

/-- Files of the association list that do not lie at or below `p`. -/
def filesOutside : List (Path × String) → Path → List (Path × String)
  | [], _ => []
  | e :: rest, p => if pathLE p e.1 then filesOutside rest p else e :: filesOutside rest p

/-- Directories of the list that do not lie at or below `p`. -/
def dirsOutside : List Path → Path → List Path
  | [], _ => []
  | d :: rest, p => if pathLE p d then dirsOutside rest p else d :: dirsOutside rest p

/-- `shutil.rmtree(p)`: remove the subtree rooted at `p`. -/
def rmtree (fs : FS) (p : Path) : FS :=
  ⟨filesOutside fs.files p, dirsOutside fs.dirs p⟩

/-- `path.unlink()`: remove a single file. -/
def unlink (fs : FS) (p : Path) : FS :=
  ⟨removeKey fs.files p, fs.dirs⟩

/-- `shutil.copy2(src, dst)`: copy one file's content (the script only calls
it after checking that the source exists, so the `none` branch is inert). -/
def copy2 (fs : FS) (src dst : Path) : FS :=
  match lookupFile fs.files src with
  | some c => writeText fs dst c
  | none => fs

/-- Relocate the file entries lying at or below `src` to below `dst`. -/
def relocFiles : List (Path × String) → Path → Path → List (Path × String)
  | [], _, _ => []
  | e :: rest, src, dst =>
    if pathLE src e.1 then (dst ++ e.1.drop src.length, e.2) :: relocFiles rest src dst
    else relocFiles rest src dst

/-- Relocate the directory entries lying at or below `src` to below `dst`. -/
def relocDirs : List Path → Path → Path → List Path
  | [], _, _ => []
  | d :: rest, src, dst =>
    if pathLE src d then (dst ++ d.drop src.length) :: relocDirs rest src dst
    else relocDirs rest src dst

/-- `shutil.copytree(src, dst)`: deep-copy the subtree at `src` to `dst`
(the script only calls it right after removing `dst`). -/
def copytree (fs : FS) (src dst : Path) : FS :=
  ⟨relocFiles fs.files src dst ++ fs.files,
   dst :: relocDirs fs.dirs src dst ++ fs.dirs⟩

/-- Place a cloned tree (files and directories given relative to the clone
root) under `root`, as `git clone` materialises its checkout. -/
def plantTree (root : Path) (tree : List (Path × String) × List Path) (fs : FS) : FS :=
  ⟨tree.1.map (fun e => (root ++ e.1, e.2)) ++ fs.files,
   tree.2.map (fun d => root ++ d) ++ fs.dirs⟩

/-- Boolean prefix test on character lists. -/
def charsLE : List Char → List Char → Bool
  | [], _ => true
  | _ :: _, [] => false
  | a :: p, b :: q => if a = b then charsLE p q else false

/-- Boolean contiguous-substring test on character lists. -/
def charsSub (pat : List Char) : List Char → Bool
  | [] => pat.isEmpty
  | c :: rest => charsLE pat (c :: rest) || charsSub pat rest

/-- Python `pat in s`: substring containment. -/
def containsSub (s pat : String) : Bool :=
  charsSub pat.toList s.toList

/-- Python `s.startswith(pre)`. -/
def strStarts (s pre : String) : Bool :=
  charsLE pre.toList s.toList

/-- Python `s.endswith("\n")`. -/
def lastIsNL : List Char → Bool
  | [] => false
  | [c] => decide (c = '\n')
  | _ :: c :: rest => lastIsNL (c :: rest)

/-- Python `s.endswith("\n")` on strings. -/
def endsWithNL (s : String) : Bool :=
  lastIsNL s.toList

/-- Everything after the first newline character. -/
def dropThroughNL : List Char → List Char
  | [] => []
  | c :: rest => if c = '\n' then rest else dropThroughNL rest

/-- Python `s[s.find("\n")+1:]`: when the string has a newline this drops the
first line (newline included); when it has none, `find` returns `-1` and the
slice `[0:]` returns the whole string unchanged. -/
def pyAfterFirstNL (s : String) : String :=
  if hasNLAux s.toList then String.mk (dropThroughNL s.toList) else s
where
  hasNLAux : List Char → Bool
    | [] => false
    | c :: rest => decide (c = '\n') || hasNLAux rest

/-- Replacement scanner: the `Nat` argument counts pattern characters still to
be skipped after a match was emitted (Python `str.replace` consumes matches
left to right without overlap). -/
def replAux (pat rep : List Char) : List Char → Nat → List Char
  | [], _ => []
  | _ :: rest, k + 1 => replAux pat rep rest k
  | c :: rest, 0 =>
    if !pat.isEmpty && charsLE pat (c :: rest) then
      rep ++ replAux pat rep rest (pat.length - 1)
    else
      c :: replAux pat rep rest 0

/-- Python `s.replace(pat, rep)` for a non-empty pattern. -/
def pyReplace (s pat rep : String) : String :=
  String.mk (replAux pat.toList rep.toList s.toList 0)

/-- Python `sep.join(l)`. -/
def joinSep (sep : String) : List String → String
  | [] => ""
  | [x] => x
  | x :: y :: rest => x ++ sep ++ joinSep sep (y :: rest)

/-- Interpret a source string as a path (component split on `/`), modelling
`pathlib.Path(s)`. -/
def strToPath (s : String) : Path :=
  splitAux s.toList []
where
  splitAux : List Char → List Char → Path
    | [], acc => [String.mk acc.reverse]
    | c :: rest, acc =>
      if c = '/' then String.mk acc.reverse :: splitAux rest []
      else splitAux rest (c :: acc)

/-- Python `pathlib.Path.name`: the final path component. -/
def pathName (p : Path) : String :=
  (p.getLast?).getD ""

/-! ## Embedded text blobs of the script -/

/-- `EMBEDDED_TEMPLATES["QUICK_REFERENCE.md"]`. -/
def QUICK_REFERENCE_content : String :=
  "# Task Management Quick Reference\n\n## 🚀 Session Start Checklist\n```bash\n# 1. Check current state\ngit status\ncat claude_tasks/active/ACTIVE_TASKS.md\nnpm test\n\n# 2. Review core docs\ncat claude_tasks/PRINCIPLES_QUICK_CARD.md\ncat claude_tasks/DEVELOPMENT_PROCESS.md\n```\n\n## 🔴 Start a New Task (TDD Process)\n1. **CHECK**: Current state and active tasks\n2. **PLAN**: Update ACTIVE_TASKS.md to \"In Progress\"\n3. **RED**: Write failing tests FIRST\n4. **GREEN**: Write minimal code to pass tests\n5. **REFACTOR**: Improve code quality\n\n## ✅ Complete a Task\n1. **DOCUMENT**: Create finished file\n2. **COMMIT**: With descriptive message\n3. **ARCHIVE**: Move to finished/\n"

/-- `EMBEDDED_TEMPLATES["PRINCIPLES_QUICK_CARD.md"]`. -/
def PRINCIPLES_QUICK_CARD_content : String :=
  "# Development Principles Quick Card\n\n## The 7 Core Principles\n\n1. **Test Driven Development** - No code without tests\n2. **Fail Fast & Root Cause** - No workarounds, fix causes\n3. **Modular & Maintainable** - Single responsibility\n4. **Reuse Before Build** - Check existing code first\n5. **Open Source First** - Suggest alternatives\n6. **No Legacy Baggage** - Clean slate, no tech debt\n7. **Perfectionist Excellence** - Best of breed only\n\n## TDD Workflow\nRED → GREEN → REFACTOR\n\n## Code Quality Standards\n- >80% test coverage\n- Clear naming conventions\n- Documented decisions\n- No commented-out code\n"

/-- `EMBEDDED_TEMPLATES["ACTIVE_TASKS.md"]`. -/
def ACTIVE_TASKS_content : String :=
  "# Active Tasks\n\n## Current Sprint\n*Last Updated: [DATE]*\n\n---\n\n## Task Queue\n\n### Task 1: [Example Task]\n- **ID**: 1\n- **Priority**: High/Medium/Low\n- **Status**: Not Started\n- **Estimated Time**: X hours\n- **Dependencies**: None\n- **Description**: [Clear description of what needs to be done]\n- **Acceptance Criteria**:\n  - [ ] Criterion 1\n  - [ ] Criterion 2\n  - [ ] Tests pass\n\n---\n\n## Completed Tasks\n*Move to finished/ folder when complete*\n\n## Notes\n- Follow TDD: Write tests first\n- Update status as you work\n- Document in finished/ when complete\n"

/-- The text of the active-tasks template before its single `[DATE]` token. -/
def ACTIVE_TASKS_before_date : String :=
  "# Active Tasks\n\n## Current Sprint\n*Last Updated: "

/-- The text of the active-tasks template after its single `[DATE]` token. -/
def ACTIVE_TASKS_after_date : String :=
  "*\n\n---\n\n## Task Queue\n\n### Task 1: [Example Task]\n- **ID**: 1\n- **Priority**: High/Medium/Low\n- **Status**: Not Started\n- **Estimated Time**: X hours\n- **Dependencies**: None\n- **Description**: [Clear description of what needs to be done]\n- **Acceptance Criteria**:\n  - [ ] Criterion 1\n  - [ ] Criterion 2\n  - [ ] Tests pass\n\n---\n\n## Completed Tasks\n*Move to finished/ folder when complete*\n\n## Notes\n- Follow TDD: Write tests first\n- Update status as you work\n- Document in finished/ when complete\n"

/-- `EMBEDDED_TEMPLATES`, in the dictionary's insertion order. -/
def EMBEDDED_TEMPLATES : List (String × String) :=
  [("QUICK_REFERENCE.md", QUICK_REFERENCE_content),
   ("PRINCIPLES_QUICK_CARD.md", PRINCIPLES_QUICK_CARD_content),
   ("ACTIVE_TASKS.md", ACTIVE_TASKS_content)]

/-- The `files_to_copy` list of `_copy_files`. -/
def files_to_copy : List String :=
  ["QUICK_REFERENCE.md",
   "PRINCIPLES_QUICK_CARD.md",
   "DEVELOPMENT_PROCESS.md",
   "PAIR_PROGRAMMING_WITH_CLAUDE.md",
   "UNIFIED_PRINCIPLES.md",
   "SESSION_STARTER.md",
   "TASK_TEMPLATE.md"]

/-- The `reference_section` block prepended by `_update_existing_claude_md`. -/
def reference_section : String :=
  "# CLAUDE.md\n\n## 📋 Claude Development Process\nThis project now uses the Claude Task Management System for AI-assisted development.\n\n### Key Documents\n- `claude_tasks/QUICK_REFERENCE.md` - Quick commands and workflow\n- `claude_tasks/DEVELOPMENT_PROCESS.md` - Full TDD methodology\n- `claude_tasks/PRINCIPLES_QUICK_CARD.md` - Core development principles\n- `claude_tasks/active/ACTIVE_TASKS.md` - Current task tracking\n\n---\n\n"

/-- The embedded default text returned by `_get_claude_md_template`. -/
def claude_md_template : String :=
  "# CLAUDE.md\n\nThis file provides guidance to Claude Code (claude.ai/code) when working with code in this repository.\n\n## Claude Development Process\n\nThis project follows the Claude Task Management System. See `claude_tasks/` for:\n- `QUICK_REFERENCE.md` - Quick commands and TDD workflow\n- `DEVELOPMENT_PROCESS.md` - Complete methodology\n- `PRINCIPLES_QUICK_CARD.md` - Core principles\n- `active/ACTIVE_TASKS.md` - Current tasks\n\n## Repository Overview\n\n[TODO: Add project description]\n\n## Project Structure\n\n```\n[TODO: Document structure]\n```\n\n## Common Development Commands\n\n### Testing\n```bash\n# Run tests\nnpm test  # or appropriate command\n\n# With coverage\nnpm test -- --coverage\n\n# Watch mode\nnpm test -- --watch\n```\n\n## Working with this Codebase\n\nFollow TDD: RED → GREEN → REFACTOR\n\nSee `claude_tasks/` for detailed methodology.\n"

/-- The `server.js` stub written by `_create_embedded_dashboard`. -/
def server_js : String :=
  "#!/usr/bin/env node\n\nconst express = require(\x27express\x27);\nconst cors = require(\x27cors\x27);\nconst fs = require(\x27fs\x27).promises;\nconst path = require(\x27path\x27);\n\nconst app = express();\nconst PORT = process.env.PORT || 8085;\n\napp.use(cors());\napp.use(express.json());\napp.use(express.static(__dirname));\n\napp.get(\x27/\x27, (req, res) => \x7b\n    res.send(`\n        <h1>Test Dashboard</h1>\n        <p>Basic test dashboard installed with Claude Task Management System</p>\n        <p>To enhance this dashboard:</p>\n        <ol>\n            <li>Run: <code>npm install</code></li>\n            <li>Copy full dashboard from claude_init repository</li>\n            <li>Run: <code>npm start</code></li>\n        </ol>\n    `);\n\x7d);\n\napp.listen(PORT, () => \x7b\n    console.log(`Test Dashboard running on http://localhost:$\x7bPORT\x7d`);\n\x7d);\n"

/-- The `discover-tests.js` stub written by `_create_embedded_dashboard`. -/
def discover_script : String :=
  "#!/usr/bin/env node\n\nconsole.log(\"Basic test discovery script\");\nconsole.log(\"To get full test discovery, copy from claude_init repository\");\n"

/-- The `package.json` text produced by `json.dump(package_json, f, indent=2)`
in `_create_embedded_dashboard`, as a function of `self.target.name`. -/
def package_json_text (name : String) : String :=
  "\x7b\n  \"name\": \"" ++ name ++ "-test-dashboard\",\n  \"version\": \"1.0.0\",\n  \"description\": \"Test dashboard for project test management\",\n  \"main\": \"server.js\",\n  \"scripts\": \x7b\n    \"start\": \"node server.js\",\n    \"discover\": \"node scripts/discover-tests.js\"\n  \x7d,\n  \"dependencies\": \x7b\n    \"express\": \"^4.18.2\",\n    \"cors\": \"^2.8.5\"\n  \x7d\n\x7d"

/-- The `entries_to_add` list of `_update_gitignore`. -/
def entries_to_add : List String :=
  ["\n# Claude task management",
   "*.backup",
   "CLAUDE.md.backup",
   "\n# Test Dashboard Module",
   "test-dashboard-module/node_modules/",
   "test-dashboard-module/package-lock.json",
   "test-dashboard-module/test-registry.json"]

/-- The full text appended to (or used to create) `.gitignore`:
`"\n".join(entries_to_add) + "\n"`. -/
def gitignoreBlock : String :=
  joinSep "\n" entries_to_add ++ "\n"

/-! ## The `ClaudeTasksSetup` class -/

/-- The constructor arguments of `ClaudeTasksSetup` (the `target` is kept as a
resolved path). -/
structure ClaudeTasksSetup where
  source : Option String
  target : Path
  force : Bool
  no_git : Bool

/-- The external world: clock, scratch-directory allocator and `git clone`.
`cloneRepo` returns the cloned tree (files and directories relative to the
clone root) or the failure raised by `subprocess.run(..., check=True)`. -/
structure Env where
  today : String
  tempDir : Path
  cloneRepo : String → Except String (List (Path × String) × List Path)

/-- Fatal errors that propagate uncaught to the top-level handler in `main`. -/
inductive SetupError
  | sourceNotFound (p : Path)
  | cloneFailed (msg : String)
deriving DecidableEq, Repr

/-- `self.claude_tasks_dir`. -/
def claude_tasks_dir (s : ClaudeTasksSetup) : Path :=
  s.target ++ ["claude_tasks"]

/-- `self.claude_md_path`. -/
def claude_md_path (s : ClaudeTasksSetup) : Path :=
  s.target ++ ["CLAUDE.md"]

/-- `self.claude_md_path.with_suffix(".md.backup")`. -/
def claude_md_backup_path (s : ClaudeTasksSetup) : Path :=
  s.target ++ ["CLAUDE.md.backup"]

/-- The dashboard directory `self.target / "test-dashboard-module"`. -/
def test_dashboard_dir (s : ClaudeTasksSetup) : Path :=
  s.target ++ ["test-dashboard-module"]

/-- The ignore file `self.target / ".gitignore"`. -/
def gitignore_path (s : ClaudeTasksSetup) : Path :=
  s.target ++ [".gitignore"]

/-- `_create_directory_structure`: make `claude_tasks/`, `claude_tasks/active/`
and `claude_tasks/finished/` when missing. -/
def create_directory_structure (s : ClaudeTasksSetup) (fs : FS) : FS :=
  let d := claude_tasks_dir s
  mkdirD (mkdirD (mkdirD fs d) (d ++ ["active"])) (d ++ ["finished"])

/-- Destination of an embedded template: `ACTIVE_TASKS.md` goes to the
`active/` subdirectory, the others to `claude_tasks/` itself. -/
def template_target (s : ClaudeTasksSetup) (name : String) : Path :=
  if name = "ACTIVE_TASKS.md" then claude_tasks_dir s ++ ["active", name]
  else claude_tasks_dir s ++ [name]

/-- The loop body of `_create_from_templates` for one template entry. -/
def create_template_step (env : Env) (s : ClaudeTasksSetup) (fs : FS)
    (e : String × String) : FS :=
  let target_file := template_target s e.1
  if pathExists fs target_file && !s.force then fs
  else writeText fs target_file (pyReplace e.2 "[DATE]" env.today)

/-- `_create_from_templates`: write each embedded template (skipping existing
files unless forced), replacing `[DATE]` with the current date. -/
def create_from_templates (env : Env) (s : ClaudeTasksSetup) (fs : FS) : FS :=
  EMBEDDED_TEMPLATES.foldl (create_template_step env s) fs

/-- One iteration of the `files_to_copy` loop in `_copy_files`. -/
def copy_one (s : ClaudeTasksSetup) (source_path : Path) (fs : FS) (name : String) : FS :=
  let source_file := source_path ++ [name]
  let target_file := claude_tasks_dir s ++ [name]
  if pathExists fs source_file then
    if pathExists fs target_file && !s.force then fs
    else copy2 fs source_file target_file
  else fs

/-- `_copy_files`: copy the fixed file list plus `active/ACTIVE_TASKS.md` from
the resolved source directory, falling back to the embedded templates when the
directory does not exist. -/
def copy_files (env : Env) (s : ClaudeTasksSetup) (fs : FS) (source_path : Path) : FS :=
  if !pathExists fs source_path then create_from_templates env s fs
  else
    let fs1 := files_to_copy.foldl (copy_one s source_path) fs
    let active_tasks := source_path ++ ["active", "ACTIVE_TASKS.md"]
    if pathExists fs1 active_tasks then
      let target_active := claude_tasks_dir s ++ ["active", "ACTIVE_TASKS.md"]
      if !pathExists fs1 target_active || s.force then copy2 fs1 active_tasks target_active
      else fs1
    else fs1

/-- The `finally` clause of `_copy_from_source`: remove the scratch clone
directory when it was created and still exists. -/
def cleanupTemp (tmp : Path) (fs : FS) : FS :=
  if pathExists fs tmp then rmtree fs tmp else fs

/-- The remote-URL test of `_copy_from_source`:
`self.source.startswith(("http://", "https://", "git@"))`. -/
def isRemoteSource (src : String) : Bool :=
  strStarts src "http://" || strStarts src "https://" || strStarts src "git@"

/-- The `.git`-stripping step of `_copy_from_source`: remove version-control
metadata from the fresh clone when present. -/
def removeGitMeta (root : Path) (fs : FS) : FS :=
  if pathExists fs (root ++ [".git"]) then rmtree fs (root ++ [".git"]) else fs

/-- `_copy_from_source`: clone a remote source into a scratch directory (with
guaranteed cleanup), or resolve a local source, descending into a
`claude_tasks` subdirectory when one exists; a missing local source raises
`FileNotFoundError`, a failing clone raises `CalledProcessError`. -/
def copy_from_source (env : Env) (s : ClaudeTasksSetup) (fs : FS) (src : String) :
    Except (SetupError × FS) FS :=
  if isRemoteSource src then
    let fs1 := mkdirD fs env.tempDir
    match env.cloneRepo src with
    | .error msg => .error (.cloneFailed msg, cleanupTemp env.tempDir fs1)
    | .ok tree =>
      let fs2 := plantTree env.tempDir tree fs1
      let fs3 := removeGitMeta env.tempDir fs2
      let fs4 := copy_files env s fs3 (env.tempDir ++ ["claude_tasks"])
      .ok (cleanupTemp env.tempDir fs4)
  else
    let source_path := strToPath src
    if !pathExists fs source_path then .error (.sourceNotFound source_path, fs)
    else
      let sp :=
        if pathExists fs (source_path ++ ["claude_tasks"]) then source_path ++ ["claude_tasks"]
        else source_path
      .ok (copy_files env s fs sp)

/-- `_update_existing_claude_md`: no-op when the marker substring
`"claude_tasks"` is present; otherwise prepend the reference section (after
stripping a leading `# CLAUDE.md` header line), backing the file up first when
`force` is false.  (The `none` branch is inert: the script only calls this
after checking that the file exists.) -/
def update_existing_claude_md (s : ClaudeTasksSetup) (fs : FS) : FS :=
  match lookupFile fs.files (claude_md_path s) with
  | none => fs
  | some existing_content =>
    if containsSub existing_content "claude_tasks" then fs
    else
      let stripped :=
        if strStarts existing_content "# CLAUDE.md" then pyAfterFirstNL existing_content
        else existing_content
      let new_content := reference_section ++ stripped
      let fs1 :=
        if !s.force then copy2 fs (claude_md_path s) (claude_md_backup_path s)
        else fs
      writeText fs1 (claude_md_path s) new_content

/-- `_create_new_claude_md`: for a local source, use a `CLAUDE.md` found at
the source root verbatim; for a remote source the lookup is skipped
(`# Would need to clone again, skip for now`), so the embedded template is
used. -/
def create_new_claude_md (s : ClaudeTasksSetup) (fs : FS) : FS :=
  let template_path : Option Path :=
    match s.source with
    | none => none
    | some src =>
      if isRemoteSource src then none
      else
        let source_path := strToPath src
        if pathExists fs (source_path ++ ["CLAUDE.md"]) then some (source_path ++ ["CLAUDE.md"])
        else none
  match template_path with
  | some tp =>
    if pathExists fs tp then copy2 fs tp (claude_md_path s)
    else writeText fs (claude_md_path s) claude_md_template
  | none => writeText fs (claude_md_path s) claude_md_template

/-- `_handle_claude_md`. -/
def handle_claude_md (s : ClaudeTasksSetup) (fs : FS) : FS :=
  if pathExists fs (claude_md_path s) then update_existing_claude_md s fs
  else create_new_claude_md s fs

/-- The per-item removal loop of `_copy_test_dashboard`
(`node_modules`, `package-lock.json`). -/
def removeItem (fs : FS) (p : Path) : FS :=
  if pathExists fs p then
    if pathMem p fs.dirs then rmtree fs p else unlink fs p
  else fs

/-- `_copy_test_dashboard`: delete any existing destination tree, deep-copy
the source dashboard, then drop `node_modules` and `package-lock.json`. -/
def copy_test_dashboard (fs : FS) (source_dir target_dir : Path) : FS :=
  let fs1 := if pathExists fs target_dir then rmtree fs target_dir else fs
  let fs2 := copytree fs1 source_dir target_dir
  let fs3 := removeItem fs2 (target_dir ++ ["node_modules"])
  removeItem fs3 (target_dir ++ ["package-lock.json"])

/-- `_create_embedded_dashboard`: synthesize the minimal dashboard. -/
def create_embedded_dashboard (s : ClaudeTasksSetup) (fs : FS) (target_dir : Path) : FS :=
  let fs1 := mkdirD fs target_dir
  let fs2 := writeText fs1 (target_dir ++ ["package.json"]) (package_json_text (pathName s.target))
  let fs3 := writeText fs2 (target_dir ++ ["server.js"]) server_js
  let fs4 := mkdirD fs3 (target_dir ++ ["scripts"])
  writeText fs4 (target_dir ++ ["scripts", "discover-tests.js"]) discover_script

/-- `_install_node_dependencies`: runs `npm install` as a subprocess with every
failure downgraded to a warning; `npm` is an external collaborator whose
effects are outside the artifacts the script manages, so the model leaves the
file-system state unchanged. -/
def install_node_dependencies (fs : FS) : FS :=
  fs

/-- `_install_test_dashboard`: copy a dashboard found under a local source,
else synthesize the embedded one; then delegate to `npm install`. -/
def install_test_dashboard (s : ClaudeTasksSetup) (fs : FS) : FS :=
  let source_dashboard : Option Path :=
    match s.source with
    | none => none
    | some src =>
      if isRemoteSource src then none
      else
        let potential_dashboard := strToPath src ++ ["test-dashboard-module"]
        if pathExists fs potential_dashboard then some potential_dashboard
        else none
  let fs1 :=
    match source_dashboard with
    | some sd => copy_test_dashboard fs sd (test_dashboard_dir s)
    | none => create_embedded_dashboard s fs (test_dashboard_dir s)
  install_node_dependencies fs1

/-- `_update_gitignore`: create the ignore file with the fixed block, or
append the block after ensuring a trailing newline, unless the marker
substring `"claude_tasks"` is already present.  (The `none` branch is inert:
it corresponds to `read_text` on a directory, which the script never
reaches intentionally.) -/
def update_gitignore (s : ClaudeTasksSetup) (fs : FS) : FS :=
  let gp := gitignore_path s
  if pathExists fs gp then
    match lookupFile fs.files gp with
    | none => fs
    | some content =>
      if containsSub content "claude_tasks" then fs
      else
        let content2 := if !endsWithNL content then content ++ "\n" else content
        writeText fs gp (content2 ++ joinSep "\n" entries_to_add ++ "\n")
  else
    writeText fs gp (joinSep "\n" entries_to_add ++ "\n")

/-- The claude-tasks installation step of `run` (directory creation followed by
source copy or template creation). -/
def install_claude_tasks (env : Env) (s : ClaudeTasksSetup) (fs : FS) :
    Except (SetupError × FS) FS :=
  let fs' := create_directory_structure s fs
  match s.source with
  | some src => copy_from_source env s fs' src
  | none => .ok (create_from_templates env s fs')

/-- `run`: the orchestration.  The three presence flags are captured once at
the start; each artifact is (re)installed when missing or when `--force` is
given; the ignore file is patched unless `--no-git` was passed.  A fatal
error from source acquisition aborts the remaining steps and carries the
file-system state at the moment it propagates. -/
def run (env : Env) (s : ClaudeTasksSetup) (fs : FS) : Except (SetupError × FS) FS :=
  let claude_tasks_exists := pathExists fs (claude_tasks_dir s)
  let test_dashboard_exists := pathExists fs (test_dashboard_dir s)
  let claude_md_exists := pathExists fs (claude_md_path s)
  let step1 :=
    if !claude_tasks_exists || s.force then install_claude_tasks env s fs
    else .ok fs
  match step1 with
  | .error e => .error e
  | .ok fs1 =>
    let fs2 := if !claude_md_exists || s.force then handle_claude_md s fs1 else fs1
    let fs3 :=
      if !test_dashboard_exists || s.force then install_test_dashboard s fs2
      else fs2
    let fs4 := if !s.no_git then update_gitignore s fs3 else fs3
    .ok fs4

/-- Extract the file-system state from a run's outcome (on error, the state at
the moment the exception propagated). -/
def resultFS : Except (SetupError × FS) FS → FS
  | .ok fs => fs
  | .error e => e.2

/-- Whether an outcome is a successful return. -/
def exceptOk : Except (SetupError × FS) FS → Bool
  | .ok _ => true
  | .error _ => false

/-- No file and no directory of the state lies at or below `p`. -/
def noTracesUnder (fs : FS) (p : Path) : Bool :=
  fs.files.all (fun e => !pathLE p e.1) && fs.dirs.all (fun d => !pathLE p d)

/-! ## Concrete fixtures used to instantiate the claims -/

/-- Environment with a fixed date, a scratch path disjoint from the targets
below, and no network (any clone fails). -/
def offlineEnv : Env :=
  { today := "2026-10-12", tempDir := ["tmp", "scratch"],
    cloneRepo := fun _ => .error "could not resolve host" }

/-- Fixture for C10: force is set and the guidance file mentions the marker
string only in unrelated prose. -/
def c10setup : ClaudeTasksSetup :=
  { source := none, target := ["proj"], force := true, no_git := false }

/-- Fixture file system for C10. -/
def c10fs : FS :=
  ⟨[(["proj", "CLAUDE.md"],
     "Notes: the phrase claude_tasks appears here only in passing.\n")],
   [["proj"]]⟩

/-- Fixture for C3. -/
def c3setup : ClaudeTasksSetup :=
  { source := none, target := ["proj"], force := false, no_git := false }

/-- C3 fixture: no ignore file. -/
def c3fsAbsent : FS := ⟨[], [["proj"]]⟩

/-- C3 fixture: an ignore file without the marker substring (and without a
trailing newline, so the blank-line-safe boundary is exercised). -/
def c3fsPlain : FS := ⟨[(["proj", ".gitignore"], "node_modules/")], [["proj"]]⟩

/-- C3 fixture: an ignore file that already contains the marker substring. -/
def c3fsMarked : FS := ⟨[(["proj", ".gitignore"], "claude_tasks/\n")], [["proj"]]⟩

/-- Fixture for C4: force is set, guidance file contains the marker. -/
def c4setup : ClaudeTasksSetup :=
  { source := none, target := ["proj"], force := true, no_git := false }

/-- Fixture file system for C4. -/
def c4fs : FS :=
  ⟨[(["proj", "CLAUDE.md"], "See claude_tasks/QUICK_REFERENCE.md for the workflow.\n")],
   [["proj"]]⟩

/-- Fixture for C2: no force, a guidance file without the marker. -/
def c2setup : ClaudeTasksSetup :=
  { source := none, target := ["proj"], force := false, no_git := false }

/-- Fixture file system for C2. -/
def c2fs : FS :=
  ⟨[(["proj", "CLAUDE.md"], "# My project\nSome notes.\n")], [["proj"]]⟩

/-- Fixture for C1: default flags, no source. -/
def c1setup : ClaudeTasksSetup :=
  { source := none, target := ["proj"], force := false, no_git := false }

/-- Fixture for C1: an empty target directory. -/
def c1fs : FS := ⟨[], [["proj"]]⟩

/-- Fixture environment for C5: one reachable remote with a `claude_tasks`
subdirectory in its tree, every other remote failing. -/
def c5env : Env :=
  { today := "2026-10-12", tempDir := ["tmp", "clone"],
    cloneRepo := fun src =>
      if src = "https://example.com/claude_init.git" then
        .ok ([(["claude_tasks", "QUICK_REFERENCE.md"], "cloned quick reference\n")],
             [["claude_tasks"], ["claude_tasks", "active"]])
      else .error "remote not reachable" }

/-- Fixture for C5 (function-level conjuncts). -/
def c5setup : ClaudeTasksSetup :=
  { source := some "srcdir", target := ["proj"], force := false, no_git := false }

/-- Fixture for C5: no source given. -/
def c5setupNone : ClaudeTasksSetup :=
  { source := none, target := ["proj"], force := false, no_git := false }

/-- Fixture for C5: a local source path that does not exist. -/
def c5setupMissing : ClaudeTasksSetup :=
  { source := some "missing", target := ["proj"], force := false, no_git := false }

/-- Fixture file system for C5: a local source with a `claude_tasks`
subdirectory, and a plain local directory without one. -/
def c5fs : FS :=
  ⟨[(["srcdir", "claude_tasks", "QUICK_REFERENCE.md"], "local quick reference\n")],
   [["proj"], ["srcdir"], ["srcdir", "claude_tasks"], ["plain"]]⟩

/-- Fixture for C5: an empty target directory. -/
def c5fsEmpty : FS := ⟨[], [["proj"]]⟩

/-- Fixture for C6: no source, fresh target. -/
def c6setup : ClaudeTasksSetup :=
  { source := none, target := ["proj"], force := false, no_git := false }

/-- Fixture for C6: an empty target directory. -/
def c6fs : FS := ⟨[], [["proj"]]⟩

/-- Fixture for C9: a target with a pre-existing dashboard directory holding a
stale file, and a local source with its own dashboard tree. -/
def c9fs : FS :=
  ⟨[(["proj", "test-dashboard-module", "stale.js"], "stale artifact"),
    (["src", "test-dashboard-module", "server.js"], "fresh server")],
   [["proj"], ["proj", "test-dashboard-module"], ["src"], ["src", "test-dashboard-module"]]⟩

/-- Fixture environment for C8: every clone succeeds and the cloned tree
contains a `CLAUDE.md` template next to its `claude_tasks` directory. -/
def c8env : Env :=
  { today := "2026-10-12", tempDir := ["tmp", "clone"],
    cloneRepo := fun _ =>
      .ok ([(["CLAUDE.md"], "# Custom guidance from the repo\n"),
            (["claude_tasks", "QUICK_REFERENCE.md"], "cloned qr\n")],
           [["claude_tasks"], ["claude_tasks", "active"]]) }

/-- Fixture for C8: a remote source. -/
def c8setup : ClaudeTasksSetup :=
  { source := some "https://example.com/claude_init.git", target := ["proj"],
    force := false, no_git := true }

/-- Fixture for C8: an empty target directory. -/
def c8fs : FS := ⟨[], [["proj"]]⟩

/-- Fixture for C8: a local source holding a `CLAUDE.md` template. -/
def c8localsetup : ClaudeTasksSetup :=
  { source := some "srcdir", target := ["proj"], force := false, no_git := false }

/-- Fixture file system for C8's local-source case. -/
def c8localfs : FS :=
  ⟨[(["srcdir", "CLAUDE.md"], "# Local template\n")], [["proj"], ["srcdir"]]⟩

/-! ## Lemmas about paths -/

theorem pathLE_refl (p : Path) : pathLE p p = true := by
  induction p with
  | nil => rfl
  | cons a p ih => simp [pathLE, ih]

theorem pathLE_append (p r : Path) : pathLE p (p ++ r) = true := by
  induction p with
  | nil => rfl
  | cons a p ih => simp [pathLE, ih]

theorem pathLE_trans {a b c : Path} (hab : pathLE a b = true) (hbc : pathLE b c = true) :
    pathLE a c = true := by
  induction a generalizing b c with
  | nil => rfl
  | cons x xs ih =>
    cases b with
    | nil => simp [pathLE] at hab
    | cons y ys =>
      cases c with
      | nil => simp [pathLE] at hbc
      | cons z zs =>
        simp only [pathLE] at hab hbc ⊢
        rcases Decidable.em (x = y) with hxy | hxy
        · rcases Decidable.em (y = z) with hyz | hyz
          · subst hxy; subst hyz
            simp only [if_pos rfl] at hab hbc ⊢
            exact ih hab hbc
          · rw [if_neg hyz] at hbc; exact absurd hbc (by simp)
        · rw [if_neg hxy] at hab; exact absurd hab (by simp)

theorem pathLE_total_above {a b c : Path} (hac : pathLE a c = true) (hbc : pathLE b c = true) :
    pathLE a b = true ∨ pathLE b a = true := by
  induction c generalizing a b with
  | nil =>
    cases a with
    | nil => exact Or.inl rfl
    | cons x xs => simp [pathLE] at hac
  | cons z zs ih =>
    cases a with
    | nil => exact Or.inl rfl
    | cons x xs =>
      cases b with
      | nil => exact Or.inr rfl
      | cons y ys =>
        simp only [pathLE] at hac hbc ⊢
        rcases Decidable.em (x = z) with hxz | hxz
        · rcases Decidable.em (y = z) with hyz | hyz
          · subst hxz; subst hyz
            simp only [if_pos rfl] at hac hbc ⊢
            exact ih hac hbc
          · rw [if_neg hyz] at hbc; exact absurd hbc (by simp)
        · rw [if_neg hxz] at hac; exact absurd hac (by simp)

theorem pathLE_append_cancel (t p q : Path) : pathLE (t ++ p) (t ++ q) = pathLE p q := by
  induction t with
  | nil => rfl
  | cons a t ih => simp [pathLE, ih]

theorem pathLE_append_drop {p q : Path} (h : pathLE p q = true) :
    p ++ q.drop p.length = q := by
  induction p generalizing q with
  | nil => simp
  | cons a p ih =>
    cases q with
    | nil => simp [pathLE] at h
    | cons b q =>
      simp only [pathLE] at h
      rcases Decidable.em (a = b) with hab | hab
      · subst hab
        rw [if_pos rfl] at h
        simpa using ih h
      · rw [if_neg hab] at h; exact absurd h (by simp)

theorem ne_of_pathLE_false {p q : Path} (h : pathLE p q = false) : p ≠ q := by
  intro he; subst he; rw [pathLE_refl p] at h; cases h

theorem pathLE_length {p q : Path} (h : pathLE p q = true) : p.length ≤ q.length := by
  induction p generalizing q with
  | nil => simp
  | cons a p ih =>
    cases q with
    | nil => simp [pathLE] at h
    | cons b q =>
      simp only [pathLE] at h
      rcases Decidable.em (a = b) with hab | hab
      · rw [if_pos hab] at h
        simpa using ih h
      · rw [if_neg hab] at h; exact absurd h (by simp)

theorem pathLE_strict_ext_false (p : Path) (a : String) : pathLE (p ++ [a]) p = false := by
  cases h : pathLE (p ++ [a]) p with
  | false => rfl
  | true =>
    have := pathLE_length h
    simp at this

theorem pathLE_extend_false {a b : Path} (r : Path)
    (h1 : pathLE a b = false) (h2 : pathLE b a = false) : pathLE a (b ++ r) = false := by
  cases h : pathLE a (b ++ r) with
  | false => rfl
  | true =>
    rcases pathLE_total_above h (pathLE_append b r) with h' | h'
    · rw [h1] at h'; cases h'
    · rw [h2] at h'; cases h'

theorem pathLE_comp_false {a b : String} (t : Path) (h : a ≠ b) :
    pathLE (t ++ [a]) (t ++ [b]) = false := by
  rw [pathLE_append_cancel]
  simp [pathLE, h]

theorem append_singleton_ne {a b : String} (t : Path) (h : a ≠ b) :
    t ++ [a] ≠ t ++ [b] := by
  intro he
  exact h (by simpa using he)

theorem ne_append_of_lt (t : Path) (a : String) : t ≠ t ++ [a] := by
  intro he
  have := congrArg List.length he
  simp at this

theorem pathLE_cons_nil_false (a : String) (p : Path) : pathLE (a :: p) [] = false := rfl

/-! ## Lemmas about the association list and the primitive operations -/

theorem lookupFile_removeKey {l : List (Path × String)} {p q : Path} (h : q ≠ p) :
    lookupFile (removeKey l p) q = lookupFile l q := by
  induction l with
  | nil => rfl
  | cons e rest ih =>
    by_cases he : e.1 = p
    · rw [removeKey, if_pos he, ih, lookupFile, if_neg (by rw [he]; exact Ne.symm h)]
    · rw [removeKey, if_neg he, lookupFile, lookupFile]
      by_cases heq : e.1 = q
      · rw [if_pos heq, if_pos heq]
      · rw [if_neg heq, if_neg heq, ih]

theorem removeKey_of_forall_ne {l : List (Path × String)} {p : Path}
    (h : ∀ e ∈ l, e.1 ≠ p) : removeKey l p = l := by
  induction l with
  | nil => rfl
  | cons e rest ih =>
    rw [removeKey, if_neg (h e (List.mem_cons_self e rest)),
      ih (fun e' he' => h e' (List.mem_cons_of_mem e he'))]

theorem lookupFile_eq_none {l : List (Path × String)} {p : Path}
    (h : ∀ e ∈ l, e.1 ≠ p) : lookupFile l p = none := by
  induction l with
  | nil => rfl
  | cons e rest ih =>
    rw [lookupFile, if_neg (h e (List.mem_cons_self e rest)),
      ih (fun e' he' => h e' (List.mem_cons_of_mem e he'))]

theorem lookupFile_removeKey_none {l : List (Path × String)} {p q : Path}
    (h : lookupFile l q = none) : lookupFile (removeKey l p) q = none := by
  induction l with
  | nil => rfl
  | cons e rest ih =>
    rw [lookupFile] at h
    by_cases heq : e.1 = q
    · rw [if_pos heq] at h; cases h
    · rw [if_neg heq] at h
      rw [removeKey]
      by_cases hep : e.1 = p
      · rw [if_pos hep]; exact ih h
      · rw [if_neg hep, lookupFile, if_neg heq]; exact ih h

theorem lookupFile_none_filesOutside {l : List (Path × String)} {p q : Path}
    (h : lookupFile l q = none) : lookupFile (filesOutside l p) q = none := by
  induction l with
  | nil => rfl
  | cons e rest ih =>
    rw [lookupFile] at h
    by_cases heq : e.1 = q
    · rw [if_pos heq] at h; cases h
    · rw [if_neg heq] at h
      rw [filesOutside]
      by_cases hu : pathLE p e.1
      · rw [if_pos hu]; exact ih h
      · rw [if_neg hu, lookupFile, if_neg heq]; exact ih h

theorem lookupFile_filesOutside_under {l : List (Path × String)} {p q : Path}
    (hq : pathLE p q = true) : lookupFile (filesOutside l p) q = none := by
  induction l with
  | nil => rfl
  | cons e rest ih =>
    rw [filesOutside]
    by_cases hu : pathLE p e.1
    · rw [if_pos hu]; exact ih
    · rw [if_neg hu, lookupFile,
        if_neg (fun he => by rw [he, hq] at hu; exact hu rfl)]
      exact ih

theorem lookupFile_append (a b : List (Path × String)) (q : Path) :
    lookupFile (a ++ b) q =
      (match lookupFile a q with
       | some c => some c
       | none => lookupFile b q) := by
  induction a with
  | nil => rfl
  | cons e rest ih =>
    by_cases he : e.1 = q
    · simp [lookupFile, if_pos he]
    · simp only [List.cons_append, lookupFile, if_neg he]
      exact ih

theorem pathMem_eq_false {l : List Path} {p : Path} (h : ∀ d ∈ l, d ≠ p) :
    pathMem p l = false := by
  induction l with
  | nil => rfl
  | cons d rest ih =>
    rw [pathMem]
    simp only [Bool.or_eq_false_iff, decide_eq_false_iff_not]
    exact ⟨h d (List.mem_cons_self d rest), ih (fun d' hd' => h d' (List.mem_cons_of_mem d hd'))⟩

theorem pathMem_append (p : Path) (a b : List Path) :
    pathMem p (a ++ b) = (pathMem p a || pathMem p b) := by
  induction a with
  | nil => rfl
  | cons d rest ih => simp [pathMem, ih, Bool.or_assoc]

theorem pathMem_true_of_mem {l : List Path} {p : Path} (h : p ∈ l) : pathMem p l = true := by
  induction l with
  | nil => cases h
  | cons d rest ih =>
    rw [pathMem]
    rcases List.mem_cons.mp h with he | hm
    · subst he; simp
    · rw [ih hm]; simp

theorem lookupFile_filesOutside {l : List (Path × String)} {p q : Path}
    (h : pathLE p q = false) : lookupFile (filesOutside l p) q = lookupFile l q := by
  induction l with
  | nil => rfl
  | cons e rest ih =>
    by_cases hu : pathLE p e.1
    · rw [filesOutside, if_pos hu, ih, lookupFile,
        if_neg (fun he => by rw [he] at hu; rw [hu] at h; cases h)]
    · rw [filesOutside, if_neg hu, lookupFile, lookupFile]
      by_cases heq : e.1 = q
      · rw [if_pos heq, if_pos heq]
      · rw [if_neg heq, if_neg heq, ih]

theorem filesOutside_all (l : List (Path × String)) (p : Path) :
    (filesOutside l p).all (fun e => !pathLE p e.1) = true := by
  induction l with
  | nil => rfl
  | cons e rest ih =>
    by_cases hu : pathLE p e.1
    · rw [filesOutside, if_pos hu]; exact ih
    · rw [filesOutside, if_neg hu, List.all_cons, ih]
      simp [hu]

theorem pathMem_dirsOutside {l : List Path} {p q : Path} (h : pathLE p q = false) :
    pathMem q (dirsOutside l p) = pathMem q l := by
  induction l with
  | nil => rfl
  | cons d rest ih =>
    by_cases hu : pathLE p d
    · rw [dirsOutside, if_pos hu, ih, pathMem]
      have : ¬(d = q) := fun he => by rw [he] at hu; rw [hu] at h; cases h
      simp [this]
    · rw [dirsOutside, if_neg hu, pathMem, pathMem, ih]

theorem dirsOutside_all (l : List Path) (p : Path) :
    (dirsOutside l p).all (fun d => !pathLE p d) = true := by
  induction l with
  | nil => rfl
  | cons d rest ih =>
    by_cases hu : pathLE p d
    · rw [dirsOutside, if_pos hu]; exact ih
    · rw [dirsOutside, if_neg hu, List.all_cons, ih]
      simp [hu]

theorem relocFiles_lookup_none {l : List (Path × String)} {src dst q : Path}
    (h : pathLE dst q = false) : lookupFile (relocFiles l src dst) q = none := by
  induction l with
  | nil => rfl
  | cons e rest ih =>
    by_cases hu : pathLE src e.1
    · rw [relocFiles, if_pos hu, lookupFile,
        if_neg (fun he => by rw [← he, pathLE_append] at h; cases h)]
      exact ih
    · rw [relocFiles, if_neg hu]; exact ih

theorem relocFiles_lookup_isSome {l : List (Path × String)} {src dst q : Path}
    (h : (lookupFile (relocFiles l src dst) q).isSome = true) :
    (lookupFile l (src ++ q.drop dst.length)).isSome = true := by
  induction l with
  | nil => simp [relocFiles, lookupFile] at h
  | cons e rest ih =>
    by_cases hu : pathLE src e.1
    · rw [relocFiles, if_pos hu] at h
      rw [lookupFile] at h
      by_cases he : dst ++ e.1.drop src.length = q
      · have hq : src ++ q.drop dst.length = e.1 := by
          rw [← he, List.drop_left, pathLE_append_drop hu]
        rw [lookupFile, hq.symm, if_pos rfl]
        rfl
      · rw [if_neg he] at h
        rw [lookupFile]
        by_cases he2 : e.1 = src ++ q.drop dst.length
        · rw [if_pos he2]; rfl
        · rw [if_neg he2]; exact ih h
    · rw [relocFiles, if_neg hu] at h
      rw [lookupFile]
      by_cases he2 : e.1 = src ++ q.drop dst.length
      · rw [if_pos he2]; rfl
      · rw [if_neg he2]; exact ih h

theorem relocDirs_pathMem_false {l : List Path} {src dst q : Path}
    (h : pathLE dst q = false) : pathMem q (relocDirs l src dst) = false := by
  induction l with
  | nil => rfl
  | cons d rest ih =>
    by_cases hu : pathLE src d
    · rw [relocDirs, if_pos hu, pathMem,
        decide_eq_false (fun he => by rw [← he, pathLE_append] at h; cases h)]
      simpa using ih
    · rw [relocDirs, if_neg hu]; exact ih

/-! ## Frame lemmas for the primitive file-system operations -/

theorem writeText_lookup (fs : FS) (p : Path) (c : String) (q : Path) :
    lookupFile (writeText fs p c).files q = if q = p then some c else lookupFile fs.files q := by
  by_cases hq : q = p
  · subst hq; simp [writeText, lookupFile]
  · rw [if_neg hq, writeText]
    simp only [lookupFile]
    rw [if_neg (fun he => hq he.symm), lookupFile_removeKey hq]

theorem writeText_dirs (fs : FS) (p : Path) (c : String) :
    (writeText fs p c).dirs = fs.dirs := rfl

theorem mkdirD_files (fs : FS) (p : Path) : (mkdirD fs p).files = fs.files := by
  rw [mkdirD]; split <;> rfl

theorem mkdirD_dirs_mem {fs : FS} {q : Path} (p : Path) (h : pathMem q fs.dirs = true) :
    pathMem q (mkdirD fs p).dirs = true := by
  rw [mkdirD]; split
  · exact h
  · rw [pathMem, h]; simp

theorem pathExists_mkdirD_self (fs : FS) (p : Path) : pathExists (mkdirD fs p) p = true := by
  rw [mkdirD]
  split
  · assumption
  · simp [pathExists, pathMem]

theorem copy2_lookup_frame {fs : FS} {src dst q : Path} (h : q ≠ dst) :
    lookupFile (copy2 fs src dst).files q = lookupFile fs.files q := by
  rw [copy2]
  cases hs : lookupFile fs.files src with
  | none => rfl
  | some c => rw [writeText_lookup, if_neg h]

theorem copy2_dirs (fs : FS) (src dst : Path) : (copy2 fs src dst).dirs = fs.dirs := by
  rw [copy2]
  cases lookupFile fs.files src <;> rfl

theorem rmtree_lookup_frame {fs : FS} {p q : Path} (h : pathLE p q = false) :
    lookupFile (rmtree fs p).files q = lookupFile fs.files q :=
  lookupFile_filesOutside h

theorem rmtree_pathMem_frame {fs : FS} {p q : Path} (h : pathLE p q = false) :
    pathMem q (rmtree fs p).dirs = pathMem q fs.dirs :=
  pathMem_dirsOutside h

theorem noTracesUnder_rmtree (fs : FS) (p : Path) : noTracesUnder (rmtree fs p) p = true := by
  rw [noTracesUnder, rmtree]
  rw [filesOutside_all, dirsOutside_all]
  rfl

theorem cleanupTemp_noTraces {fs : FS} {tmp : Path} (h : pathExists fs tmp = true) :
    noTracesUnder (cleanupTemp tmp fs) tmp = true := by
  rw [cleanupTemp, if_pos h]
  exact noTracesUnder_rmtree fs tmp

theorem unlink_lookup_frame {fs : FS} {p q : Path} (h : q ≠ p) :
    lookupFile (unlink fs p).files q = lookupFile fs.files q :=
  lookupFile_removeKey h

theorem copytree_lookup_frame {fs : FS} {src dst q : Path} (h : pathLE dst q = false) :
    lookupFile (copytree fs src dst).files q = lookupFile fs.files q := by
  rw [copytree]
  show lookupFile (relocFiles fs.files src dst ++ fs.files) q = _
  rw [lookupFile_append, relocFiles_lookup_none h]

theorem plantTree_lookup_frame {root q : Path} (tree : List (Path × String) × List Path)
    {fs : FS} (h : pathLE root q = false) :
    lookupFile (plantTree root tree fs).files q = lookupFile fs.files q := by
  rw [plantTree]
  show lookupFile (tree.1.map (fun e => (root ++ e.1, e.2)) ++ fs.files) q = _
  rw [lookupFile_append]
  have : lookupFile (tree.1.map (fun e => (root ++ e.1, e.2))) q = none := by
    apply lookupFile_eq_none
    intro e he
    rcases List.mem_map.mp he with ⟨e', _, rfl⟩
    exact fun hcontra => by rw [← hcontra, pathLE_append] at h; cases h
  rw [this]

theorem plantTree_pathMem {root q : Path} (tree : List (Path × String) × List Path)
    {fs : FS} (h : pathMem q fs.dirs = true) :
    pathMem q (plantTree root tree fs).dirs = true := by
  rw [plantTree]
  show pathMem q (tree.2.map (fun d => root ++ d) ++ fs.dirs) = true
  rw [pathMem_append, h]
  simp

theorem pathLE_of_append_left {t r q : Path} (h : pathLE (t ++ r) q = true) :
    pathLE t q = true :=
  pathLE_trans (pathLE_append t r) h

theorem pathLE_append_left_false {t r q : Path} (h : pathLE t q = false) :
    pathLE (t ++ r) q = false := by
  cases hc : pathLE (t ++ r) q with
  | false => rfl
  | true => rw [pathLE_of_append_left hc] at h; cases h

/-! ## Frame lemmas for the installer's steps -/

theorem create_directory_structure_files (s : ClaudeTasksSetup) (fs : FS) :
    (create_directory_structure s fs).files = fs.files := by
  rw [create_directory_structure, mkdirD_files, mkdirD_files, mkdirD_files]

theorem template_target_under (s : ClaudeTasksSetup) (name : String) :
    pathLE (claude_tasks_dir s) (template_target s name) = true := by
  rw [template_target]
  split <;> exact pathLE_append _ _

theorem create_from_templates_lookup_frame {env : Env} {s : ClaudeTasksSetup} {fs : FS}
    {q : Path} (h : pathLE (claude_tasks_dir s) q = false) :
    lookupFile (create_from_templates env s fs).files q = lookupFile fs.files q := by
  rw [create_from_templates]
  generalize EMBEDDED_TEMPLATES = ts
  induction ts generalizing fs with
  | nil => rfl
  | cons e rest ih =>
    rw [List.foldl_cons, ih, create_template_step]
    split
    · rfl
    · rw [writeText_lookup,
        if_neg (fun he => by rw [he, template_target_under] at h; cases h)]

theorem create_from_templates_dirs (env : Env) (s : ClaudeTasksSetup) (fs : FS) :
    (create_from_templates env s fs).dirs = fs.dirs := by
  rw [create_from_templates]
  generalize EMBEDDED_TEMPLATES = ts
  induction ts generalizing fs with
  | nil => rfl
  | cons e rest ih =>
    rw [List.foldl_cons, ih, create_template_step]
    split <;> rfl

theorem copy_one_lookup_frame {s : ClaudeTasksSetup} {source_path : Path} {fs : FS}
    {name : String} {q : Path} (h : pathLE (claude_tasks_dir s) q = false) :
    lookupFile (copy_one s source_path fs name).files q = lookupFile fs.files q := by
  rw [copy_one]
  split
  · split
    · rfl
    · exact copy2_lookup_frame
        (fun he => by rw [he, pathLE_append] at h; cases h)
  · rfl

theorem copy_one_dirs (s : ClaudeTasksSetup) (source_path : Path) (fs : FS) (name : String) :
    (copy_one s source_path fs name).dirs = fs.dirs := by
  rw [copy_one]
  split
  · split
    · rfl
    · exact copy2_dirs _ _ _
  · rfl

theorem copy_files_lookup_frame {env : Env} {s : ClaudeTasksSetup} {fs : FS}
    {source_path q : Path} (h : pathLE (claude_tasks_dir s) q = false) :
    lookupFile (copy_files env s fs source_path).files q = lookupFile fs.files q := by
  rw [copy_files]
  split
  · exact create_from_templates_lookup_frame h
  · dsimp only
    have hloop : ∀ (names : List String) (fs' : FS),
        lookupFile (names.foldl (copy_one s source_path) fs').files q =
          lookupFile fs'.files q := by
      intro names
      induction names with
      | nil => intro fs'; rfl
      | cons n rest ih =>
        intro fs'
        rw [List.foldl_cons, ih, copy_one_lookup_frame h]
    split
    · split
      · rw [copy2_lookup_frame (fun he => by rw [he, pathLE_append] at h; cases h), hloop]
      · exact hloop _ _
    · exact hloop _ _

theorem copy_files_dirs (env : Env) (s : ClaudeTasksSetup) (fs : FS) (source_path : Path) :
    (copy_files env s fs source_path).dirs = fs.dirs := by
  rw [copy_files]
  split
  · exact create_from_templates_dirs env s fs
  · dsimp only
    have hloop : ∀ (names : List String) (fs' : FS),
        (names.foldl (copy_one s source_path) fs').dirs = fs'.dirs := by
      intro names
      induction names with
      | nil => intro fs'; rfl
      | cons n rest ih =>
        intro fs'
        rw [List.foldl_cons, ih, copy_one_dirs]
    split
    · split
      · rw [copy2_dirs, hloop]
      · exact hloop _ _
    · exact hloop _ _

theorem cleanupTemp_lookup_frame {tmp q : Path} {fs : FS} (h : pathLE tmp q = false) :
    lookupFile (cleanupTemp tmp fs).files q = lookupFile fs.files q := by
  rw [cleanupTemp]
  split
  · exact rmtree_lookup_frame h
  · rfl

theorem removeGitMeta_lookup_frame {root q : Path} {fs : FS} (h : pathLE root q = false) :
    lookupFile (removeGitMeta root fs).files q = lookupFile fs.files q := by
  rw [removeGitMeta]
  split
  · exact rmtree_lookup_frame (pathLE_append_left_false h)
  · rfl

theorem copy_from_source_lookup_frame {env : Env} {s : ClaudeTasksSetup} {fs : FS}
    {src : String} {q : Path} (hct : pathLE (claude_tasks_dir s) q = false)
    (htmp : pathLE env.tempDir q = false) :
    lookupFile (resultFS (copy_from_source env s fs src)).files q = lookupFile fs.files q := by
  rw [copy_from_source]
  split
  · cases hclone : env.cloneRepo src with
    | error msg =>
      show lookupFile (cleanupTemp env.tempDir (mkdirD fs env.tempDir)).files q = _
      rw [cleanupTemp_lookup_frame htmp, mkdirD_files]
    | ok tree =>
      show lookupFile (cleanupTemp env.tempDir _).files q = _
      rw [cleanupTemp_lookup_frame htmp, copy_files_lookup_frame hct,
        removeGitMeta_lookup_frame htmp, plantTree_lookup_frame _ htmp, mkdirD_files]
  · dsimp only
    split
    · rfl
    · show lookupFile (copy_files env s fs _).files q = _
      exact copy_files_lookup_frame hct

theorem install_claude_tasks_lookup_frame {env : Env} {s : ClaudeTasksSetup} {fs : FS}
    {q : Path} (hct : pathLE (claude_tasks_dir s) q = false)
    (htmp : pathLE env.tempDir q = false) :
    lookupFile (resultFS (install_claude_tasks env s fs)).files q = lookupFile fs.files q := by
  unfold install_claude_tasks
  cases hsrc : s.source with
  | some src =>
    dsimp only
    rw [copy_from_source_lookup_frame hct htmp, create_directory_structure_files]
  | none =>
    show lookupFile (resultFS (Except.ok (create_from_templates env s
      (create_directory_structure s fs)))).files q = _
    rw [show resultFS (Except.ok (create_from_templates env s
        (create_directory_structure s fs))) =
      create_from_templates env s (create_directory_structure s fs) from rfl]
    rw [create_from_templates_lookup_frame hct, create_directory_structure_files]

theorem create_embedded_dashboard_lookup_frame {s : ClaudeTasksSetup} {fs : FS}
    {target_dir q : Path} (h : pathLE target_dir q = false) :
    lookupFile (create_embedded_dashboard s fs target_dir).files q = lookupFile fs.files q := by
  rw [create_embedded_dashboard]
  rw [writeText_lookup, if_neg (fun he => by rw [he, pathLE_append] at h; cases h),
    mkdirD_files,
    writeText_lookup, if_neg (fun he => by rw [he, pathLE_append] at h; cases h),
    writeText_lookup, if_neg (fun he => by rw [he, pathLE_append] at h; cases h),
    mkdirD_files]

theorem removeItem_lookup_frame {fs : FS} {p q : Path} (h : pathLE p q = false) :
    lookupFile (removeItem fs p).files q = lookupFile fs.files q := by
  rw [removeItem]
  split
  · split
    · exact rmtree_lookup_frame h
    · exact unlink_lookup_frame (Ne.symm (ne_of_pathLE_false h))
  · rfl

theorem removeItem_lookup_none {fs : FS} {p q : Path}
    (h : lookupFile fs.files q = none) : lookupFile (removeItem fs p).files q = none := by
  rw [removeItem]
  split
  · split
    · exact lookupFile_none_filesOutside h
    · exact lookupFile_removeKey_none h
  · exact h

theorem copy_test_dashboard_lookup_frame {fs : FS} {source_dir target_dir q : Path}
    (h : pathLE target_dir q = false) :
    lookupFile (copy_test_dashboard fs source_dir target_dir).files q =
      lookupFile fs.files q := by
  rw [copy_test_dashboard]
  rw [removeItem_lookup_frame (pathLE_append_left_false h),
    removeItem_lookup_frame (pathLE_append_left_false h),
    copytree_lookup_frame h]
  split
  · exact rmtree_lookup_frame h
  · rfl

theorem install_test_dashboard_lookup_frame {s : ClaudeTasksSetup} {fs : FS} {q : Path}
    (h : pathLE (test_dashboard_dir s) q = false) :
    lookupFile (install_test_dashboard s fs).files q = lookupFile fs.files q := by
  rw [install_test_dashboard]
  split
  · exact copy_test_dashboard_lookup_frame h
  · exact create_embedded_dashboard_lookup_frame h

theorem update_gitignore_lookup_frame {s : ClaudeTasksSetup} {fs : FS} {q : Path}
    (h : q ≠ gitignore_path s) :
    lookupFile (update_gitignore s fs).files q = lookupFile fs.files q := by
  rw [update_gitignore]
  split
  · split
    · rfl
    · split
      · rfl
      · rw [writeText_lookup, if_neg h]
  · rw [writeText_lookup, if_neg h]

theorem append_comp_ne (t : Path) {X Y : Path} (h : X ≠ Y) : t ++ X ≠ t ++ Y :=
  fun he => h (by simpa using he)

theorem pathExists_mk_false {files : List (Path × String)} {dirs : List Path} {q : Path}
    (hf : lookupFile files q = none) (hd : pathMem q dirs = false) :
    pathExists ⟨files, dirs⟩ q = false := by
  rw [pathExists, isFileB]
  show ((lookupFile files q).isSome || pathMem q dirs) = false
  rw [hf, hd]
  rfl

theorem mkdirD_mk_not_exists {files : List (Path × String)} {dirs : List Path} {p : Path}
    (h : pathExists ⟨files, dirs⟩ p = false) :
    mkdirD ⟨files, dirs⟩ p = ⟨files, p :: dirs⟩ := by
  rw [mkdirD, if_neg (by rw [h]; simp)]

theorem writeText_mk (files : List (Path × String)) (dirs : List Path) (p : Path)
    (c : String) : writeText ⟨files, dirs⟩ p c = ⟨(p, c) :: removeKey files p, dirs⟩ :=
  rfl

/-- Sanity check of the split of the active-tasks template around its single
`[DATE]` token. -/
theorem ACTIVE_TASKS_split :
    ACTIVE_TASKS_before_date ++ ("[DATE]" ++ ACTIVE_TASKS_after_date) =
      ACTIVE_TASKS_content := rfl

/-- The quick-reference template contains no `[DATE]` token, so the date
substitution leaves it unchanged. -/
theorem pyReplace_QUICK (rep : String) :
    pyReplace QUICK_REFERENCE_content "[DATE]" rep = QUICK_REFERENCE_content := rfl

/-- The principles template contains no `[DATE]` token, so the date
substitution leaves it unchanged. -/
theorem pyReplace_PRINCIPLES (rep : String) :
    pyReplace PRINCIPLES_QUICK_CARD_content "[DATE]" rep =
      PRINCIPLES_QUICK_CARD_content := rfl

/-- The active-tasks template contains exactly one `[DATE]` token, and the
substitution replaces it with the given date. -/
theorem pyReplace_ACTIVE (rep : String) :
    pyReplace ACTIVE_TASKS_content "[DATE]" rep =
      ACTIVE_TASKS_before_date ++ (rep ++ ACTIVE_TASKS_after_date) := rfl

theorem pathExists_mkdirD_ne {fs : FS} {p q : Path} (h : q ≠ p) :
    pathExists (mkdirD fs p) q = pathExists fs q := by
  rw [mkdirD]
  split
  · rfl
  · simp only [pathExists, isFileB, pathMem]
    rw [decide_eq_false (fun he => h he.symm)]
    simp

theorem pathExists_create_directory_structure {s : ClaudeTasksSetup} {fs : FS} {q : Path}
    (h : pathLE s.target q = false) :
    pathExists (create_directory_structure s fs) q = pathExists fs q := by
  have h1 : q ≠ claude_tasks_dir s := fun he => by
    rw [he, show pathLE s.target (claude_tasks_dir s) = true from pathLE_append s.target _] at h
    cases h
  have h2 : q ≠ claude_tasks_dir s ++ ["active"] := fun he => by
    rw [he, show pathLE s.target (claude_tasks_dir s ++ ["active"]) = true from
      pathLE_trans (pathLE_append s.target _) (pathLE_append (claude_tasks_dir s) _)] at h
    cases h
  have h3 : q ≠ claude_tasks_dir s ++ ["finished"] := fun he => by
    rw [he, show pathLE s.target (claude_tasks_dir s ++ ["finished"]) = true from
      pathLE_trans (pathLE_append s.target _) (pathLE_append (claude_tasks_dir s) _)] at h
    cases h
  rw [create_directory_structure]
  rw [pathExists_mkdirD_ne h3, pathExists_mkdirD_ne h2, pathExists_mkdirD_ne h1]

/-- When the guidance file's content contains the marker substring,
`_update_existing_claude_md` leaves the state untouched, whatever the force
flag is. -/
theorem update_existing_marker_id {s : ClaudeTasksSetup} {fs : FS} {content : String}
    (hread : lookupFile fs.files (claude_md_path s) = some content)
    (hmark : containsSub content "claude_tasks" = true) :
    update_existing_claude_md s fs = fs := by
  rw [update_existing_claude_md, hread]
  simp only [hmark]
  rfl

theorem strAppendAssoc (a b c : String) : a ++ b ++ c = a ++ (b ++ c) := by
  apply String.ext
  simp [String.data_append, List.append_assoc]

/-- Composition of the step frames over a whole `run`: a path that is outside
the task directory, outside the dashboard directory, distinct from the ignore
file, outside the scratch clone directory, and (when the guidance-file step
runs at all) preserved by it, has its file content preserved by `run`, on
success as well as when a fatal error propagates. -/
theorem run_lookup_frame (env : Env) (s : ClaudeTasksSetup) (fs : FS) (q : Path)
    (hct : pathLE (claude_tasks_dir s) q = false)
    (htd : pathLE (test_dashboard_dir s) q = false)
    (hgi : q ≠ gitignore_path s)
    (htmp : pathLE env.tempDir q = false)
    (hmd : (!pathExists fs (claude_md_path s) || s.force) = true →
      ∀ fs', lookupFile fs'.files q = lookupFile fs.files q →
        lookupFile (handle_claude_md s fs').files q = lookupFile fs'.files q) :
    lookupFile (resultFS (run env s fs)).files q = lookupFile fs.files q := by
  unfold run
  dsimp only
  split
  next e he =>
    dsimp only [resultFS]
    by_cases hc1 : (!pathExists fs (claude_tasks_dir s) || s.force) = true
    · rw [if_pos hc1] at he
      have hf := @install_claude_tasks_lookup_frame env s fs q hct htmp
      rw [he] at hf
      exact hf
    · rw [if_neg hc1] at he
      exact absurd he (by simp)
  next fs1 hok =>
    have h1f : lookupFile fs1.files q = lookupFile fs.files q := by
      by_cases hc1 : (!pathExists fs (claude_tasks_dir s) || s.force) = true
      · rw [if_pos hc1] at hok
        have hf := @install_claude_tasks_lookup_frame env s fs q hct htmp
        rw [hok] at hf
        exact hf
      · rw [if_neg hc1] at hok
        injection hok with h
        rw [← h]
    dsimp only [resultFS]
    by_cases hc2 : (!pathExists fs (claude_md_path s) || s.force) = true
    · rw [if_pos hc2]
      have h2f : lookupFile (handle_claude_md s fs1).files q = lookupFile fs.files q := by
        rw [hmd hc2 fs1 h1f, h1f]
      by_cases hc3 : (!pathExists fs (test_dashboard_dir s) || s.force) = true
      · rw [if_pos hc3]
        by_cases hc4 : (!s.no_git) = true
        · rw [if_pos hc4, update_gitignore_lookup_frame hgi,
            install_test_dashboard_lookup_frame htd, h2f]
        · rw [if_neg hc4, install_test_dashboard_lookup_frame htd, h2f]
      · rw [if_neg hc3]
        by_cases hc4 : (!s.no_git) = true
        · rw [if_pos hc4, update_gitignore_lookup_frame hgi, h2f]
        · rw [if_neg hc4, h2f]
    · rw [if_neg hc2]
      by_cases hc3 : (!pathExists fs (test_dashboard_dir s) || s.force) = true
      · rw [if_pos hc3]
        by_cases hc4 : (!s.no_git) = true
        · rw [if_pos hc4, update_gitignore_lookup_frame hgi,
            install_test_dashboard_lookup_frame htd, h1f]
        · rw [if_neg hc4, install_test_dashboard_lookup_frame htd, h1f]
      · rw [if_neg hc3]
        by_cases hc4 : (!s.no_git) = true
        · rw [if_pos hc4, update_gitignore_lookup_frame hgi, h1f]
        · rw [if_neg hc4, h1f]

/-! ## The claims -/

/-- C10: the marker test on an existing guidance file is a plain substring
search for `"claude_tasks"`, so any `CLAUDE.md` whose content mentions that
string anywhere — in any context — is treated as already configured and the
state is left entirely unmodified, for every value of the force flag. -/
theorem C10_marker_plain_substring_no_op (s : ClaudeTasksSetup) (fs : FS) (content : String)
    (hread : lookupFile fs.files (claude_md_path s) = some content)
    (hmark : containsSub content "claude_tasks" = true) :
    update_existing_claude_md s fs = fs :=
  update_existing_marker_id hread hmark

/-- Witness for C10: a guidance file that mentions `claude_tasks` only in
unrelated prose, under `force = true`, is untouched. -/
theorem C10_witness :
    lookupFile c10fs.files (claude_md_path c10setup) =
        some "Notes: the phrase claude_tasks appears here only in passing.\n" ∧
      containsSub "Notes: the phrase claude_tasks appears here only in passing.\n"
          "claude_tasks" = true ∧
      update_existing_claude_md c10setup c10fs = c10fs :=
  ⟨rfl, by decide,
   C10_marker_plain_substring_no_op c10setup c10fs
     "Notes: the phrase claude_tasks appears here only in passing.\n" rfl (by decide)⟩

/-- C4: when the guidance file exists and its content contains the marker
substring, a whole `run` leaves that content byte-for-byte unchanged,
regardless of the force flag (the scratch clone directory allocated by
`mkdtemp` is fresh, hence disjoint from the target). -/
theorem C4_marker_content_unchanged (env : Env) (s : ClaudeTasksSetup) (fs : FS)
    (content : String)
    (hread : lookupFile fs.files (claude_md_path s) = some content)
    (hmark : containsSub content "claude_tasks" = true)
    (hd1 : pathLE env.tempDir s.target = false)
    (hd2 : pathLE s.target env.tempDir = false) :
    lookupFile (resultFS (run env s fs)).files (claude_md_path s) = some content := by
  have hct : pathLE (claude_tasks_dir s) (claude_md_path s) = false :=
    pathLE_comp_false s.target (by decide)
  have htd : pathLE (test_dashboard_dir s) (claude_md_path s) = false :=
    pathLE_comp_false s.target (by decide)
  have hgi : claude_md_path s ≠ gitignore_path s :=
    append_singleton_ne s.target (by decide)
  have htmp : pathLE env.tempDir (claude_md_path s) = false :=
    pathLE_extend_false ["CLAUDE.md"] hd1 hd2
  have hmd : (!pathExists fs (claude_md_path s) || s.force) = true →
      ∀ fs', lookupFile fs'.files (claude_md_path s) =
          lookupFile fs.files (claude_md_path s) →
        lookupFile (handle_claude_md s fs').files (claude_md_path s) =
          lookupFile fs'.files (claude_md_path s) := by
    intro _ fs' hpres
    rw [hread] at hpres
    have hex : pathExists fs' (claude_md_path s) = true := by
      rw [pathExists, isFileB, hpres]; rfl
    rw [handle_claude_md, if_pos hex, update_existing_marker_id hpres hmark]
  rw [run_lookup_frame env s fs (claude_md_path s) hct htd hgi htmp hmd, hread]

/-- Witness for C4: a run with `force = true` over a marked guidance file
leaves its content unchanged. -/
theorem C4_witness :
    lookupFile c4fs.files (claude_md_path c4setup) =
        some "See claude_tasks/QUICK_REFERENCE.md for the workflow.\n" ∧
      containsSub "See claude_tasks/QUICK_REFERENCE.md for the workflow.\n"
          "claude_tasks" = true ∧
      c4setup.force = true ∧
      lookupFile (resultFS (run offlineEnv c4setup c4fs)).files (claude_md_path c4setup) =
        some "See claude_tasks/QUICK_REFERENCE.md for the workflow.\n" :=
  ⟨rfl, by decide, rfl,
   C4_marker_content_unchanged offlineEnv c4setup c4fs
     "See claude_tasks/QUICK_REFERENCE.md for the workflow.\n"
     rfl (by decide) (by decide) (by decide)⟩

/-- C2 (amended): when the guidance file exists and force is false, the
guidance-file step of `run` is skipped entirely — `CLAUDE.md` is byte-for-byte
unchanged and no backup file is created (the update-and-backup path of
`_update_existing_claude_md` is unreachable from `run` with `force = false`,
because `run` gates the step on `not claude_md_exists or self.force`). -/
theorem C2_exists_not_forced_skipped (env : Env) (s : ClaudeTasksSetup) (fs : FS)
    (hex : pathExists fs (claude_md_path s) = true)
    (hforce : s.force = false)
    (hd1 : pathLE env.tempDir s.target = false)
    (hd2 : pathLE s.target env.tempDir = false) :
    lookupFile (resultFS (run env s fs)).files (claude_md_path s) =
        lookupFile fs.files (claude_md_path s) ∧
      isFileB (resultFS (run env s fs)) (claude_md_backup_path s) =
        isFileB fs (claude_md_backup_path s) := by
  have hmdFalse : (!pathExists fs (claude_md_path s) || s.force) = false := by
    rw [hex, hforce]; rfl
  have hmd : ∀ p : Path, (!pathExists fs (claude_md_path s) || s.force) = true →
      ∀ fs', lookupFile fs'.files p = lookupFile fs.files p →
        lookupFile (handle_claude_md s fs').files p = lookupFile fs'.files p := by
    intro p hcond
    rw [hmdFalse] at hcond
    cases hcond
  constructor
  · exact run_lookup_frame env s fs (claude_md_path s)
      (pathLE_comp_false s.target (by decide))
      (pathLE_comp_false s.target (by decide))
      (append_singleton_ne s.target (by decide))
      (pathLE_extend_false ["CLAUDE.md"] hd1 hd2)
      (hmd (claude_md_path s))
  · rw [isFileB, isFileB,
      run_lookup_frame env s fs (claude_md_backup_path s)
        (pathLE_comp_false s.target (by decide))
        (pathLE_comp_false s.target (by decide))
        (append_singleton_ne s.target (by decide))
        (pathLE_extend_false ["CLAUDE.md.backup"] hd1 hd2)
        (hmd (claude_md_backup_path s))]

/-- Witness for C2 (amended): a concrete run over an unmarked guidance file
with `force = false` leaves the file alone and creates no backup. -/
theorem C2_witness :
    pathExists c2fs (claude_md_path c2setup) = true ∧
      c2setup.force = false ∧
      lookupFile (resultFS (run offlineEnv c2setup c2fs)).files (claude_md_path c2setup) =
          lookupFile c2fs.files (claude_md_path c2setup) ∧
        isFileB (resultFS (run offlineEnv c2setup c2fs)) (claude_md_backup_path c2setup) =
          isFileB c2fs (claude_md_backup_path c2setup) :=
  ⟨by decide, rfl,
   C2_exists_not_forced_skipped offlineEnv c2setup c2fs (by decide) rfl
     (by decide) (by decide)⟩

/-- Counterexample to C2 as stated: the guidance file exists, lacks the
marker, force is false — yet after the run no backup file exists and
`CLAUDE.md` still holds its original content, not the reference block. -/
theorem C2_counterexample :
    containsSub "# My project\nSome notes.\n" "claude_tasks" = false ∧
      c2setup.force = false ∧
      lookupFile c2fs.files (claude_md_path c2setup) = some "# My project\nSome notes.\n" ∧
      exceptOk (run offlineEnv c2setup c2fs) = true ∧
      lookupFile (resultFS (run offlineEnv c2setup c2fs)).files (claude_md_path c2setup) =
        some "# My project\nSome notes.\n" ∧
      isFileB (resultFS (run offlineEnv c2setup c2fs)) (claude_md_backup_path c2setup) =
        false :=
  ⟨by decide, rfl, rfl, rfl, rfl, rfl⟩

/-- C3: behaviour of `_update_gitignore` on every prior state of the ignore
file: absent → created containing exactly the fixed block; present without
the marker substring → the original content is preserved and the block is
appended after ensuring exactly one trailing newline; present with the marker
substring → unchanged. -/
theorem C3_update_gitignore_cases (s : ClaudeTasksSetup) (fs : FS) :
    (pathExists fs (gitignore_path s) = false →
      update_gitignore s fs = writeText fs (gitignore_path s) gitignoreBlock) ∧
    (∀ content, lookupFile fs.files (gitignore_path s) = some content →
      containsSub content "claude_tasks" = false →
      update_gitignore s fs = writeText fs (gitignore_path s)
        ((if !endsWithNL content then content ++ "\n" else content) ++ gitignoreBlock)) ∧
    (∀ content, lookupFile fs.files (gitignore_path s) = some content →
      containsSub content "claude_tasks" = true →
      update_gitignore s fs = fs) := by
  refine ⟨?_, ?_, ?_⟩
  · intro habs
    rw [update_gitignore]
    dsimp only
    rw [if_neg (by rw [habs]; simp)]
    rfl
  · intro content hread hmark
    have hex : pathExists fs (gitignore_path s) = true := by
      rw [pathExists, isFileB, hread]
      rfl
    rw [update_gitignore]
    dsimp only
    rw [if_pos hex, hread]
    simp only [hmark]
    rw [if_neg (by simp), gitignoreBlock, strAppendAssoc]
  · intro content hread hmark
    have hex : pathExists fs (gitignore_path s) = true := by
      rw [pathExists, isFileB, hread]
      rfl
    rw [update_gitignore]
    dsimp only
    rw [if_pos hex, hread]
    simp only [hmark]
    rfl

/-- Witness for C3: the three cases at concrete states — an empty target, a
target with an unrelated `.gitignore`, and a target whose `.gitignore`
already mentions the marker. -/
theorem C3_witness :
    (pathExists c3fsAbsent (gitignore_path c3setup) = false ∧
      update_gitignore c3setup c3fsAbsent =
        writeText c3fsAbsent (gitignore_path c3setup) gitignoreBlock) ∧
    (lookupFile c3fsPlain.files (gitignore_path c3setup) = some "node_modules/" ∧
      containsSub "node_modules/" "claude_tasks" = false ∧
      update_gitignore c3setup c3fsPlain = writeText c3fsPlain (gitignore_path c3setup)
        ((if !endsWithNL "node_modules/" then "node_modules/" ++ "\n" else "node_modules/") ++
          gitignoreBlock)) ∧
    (lookupFile c3fsMarked.files (gitignore_path c3setup) = some "claude_tasks/\n" ∧
      containsSub "claude_tasks/\n" "claude_tasks" = true ∧
      update_gitignore c3setup c3fsMarked = c3fsMarked) :=
  ⟨⟨by decide, (C3_update_gitignore_cases c3setup c3fsAbsent).1 (by decide)⟩,
   ⟨rfl, by decide,
    (C3_update_gitignore_cases c3setup c3fsPlain).2.1 "node_modules/" rfl (by decide)⟩,
   ⟨rfl, by decide,
    (C3_update_gitignore_cases c3setup c3fsMarked).2.2 "claude_tasks/\n" rfl (by decide)⟩⟩

/-- C1 (failing input): starting from an empty target with no source and
default flags, the first run creates `.gitignore` containing exactly the fixed
block, the second run succeeds but rewrites `.gitignore` to twice the block —
the block the script writes never contains the marker substring
`"claude_tasks"` that `_update_gitignore` checks for, so the second run is not
a no-op on the artifact the first run created. -/
theorem C1_second_run_reappends_gitignore :
    exceptOk (run offlineEnv c1setup c1fs) = true ∧
      lookupFile (resultFS (run offlineEnv c1setup c1fs)).files (gitignore_path c1setup) =
        some gitignoreBlock ∧
      exceptOk (run offlineEnv c1setup (resultFS (run offlineEnv c1setup c1fs))) = true ∧
      lookupFile (resultFS (run offlineEnv c1setup
          (resultFS (run offlineEnv c1setup c1fs)))).files (gitignore_path c1setup) =
        some (gitignoreBlock ++ gitignoreBlock) ∧
      gitignoreBlock ++ gitignoreBlock ≠ gitignoreBlock :=
  ⟨rfl, rfl, rfl, rfl, by decide⟩

/-- C5: source acquisition follows the fixed priority.  A remote source
(`http://`, `https://` or `git@` prefix) is cloned into the scratch directory
and the clone's `claude_tasks` subdirectory is used as the content source,
with a failing clone propagating as a fatal error; a missing local source
raises a fatal `source not found` error that propagates uncaught out of
`run`; a local source with a `claude_tasks` subdirectory is descended into,
otherwise used as given; no source selects the embedded templates. -/
theorem C5_source_acquisition (env : Env) (s : ClaudeTasksSetup) (fs : FS) :
    (∀ src msg, isRemoteSource src = true → env.cloneRepo src = .error msg →
      copy_from_source env s fs src =
        .error (.cloneFailed msg, cleanupTemp env.tempDir (mkdirD fs env.tempDir))) ∧
    (∀ src tree, isRemoteSource src = true → env.cloneRepo src = .ok tree →
      copy_from_source env s fs src =
        .ok (cleanupTemp env.tempDir
          (copy_files env s
            (removeGitMeta env.tempDir (plantTree env.tempDir tree (mkdirD fs env.tempDir)))
            (env.tempDir ++ ["claude_tasks"])))) ∧
    (∀ src, isRemoteSource src = false → pathExists fs (strToPath src) = false →
      copy_from_source env s fs src = .error (.sourceNotFound (strToPath src), fs)) ∧
    (∀ src, isRemoteSource src = false → pathExists fs (strToPath src) = true →
      pathExists fs (strToPath src ++ ["claude_tasks"]) = true →
      copy_from_source env s fs src =
        .ok (copy_files env s fs (strToPath src ++ ["claude_tasks"]))) ∧
    (∀ src, isRemoteSource src = false → pathExists fs (strToPath src) = true →
      pathExists fs (strToPath src ++ ["claude_tasks"]) = false →
      copy_from_source env s fs src = .ok (copy_files env s fs (strToPath src))) ∧
    (s.source = none → install_claude_tasks env s fs =
      .ok (create_from_templates env s (create_directory_structure s fs))) ∧
    (∀ src, s.source = some src → isRemoteSource src = false →
      pathExists fs (claude_tasks_dir s) = false →
      pathLE s.target (strToPath src) = false →
      pathExists fs (strToPath src) = false →
      run env s fs =
        .error (.sourceNotFound (strToPath src), create_directory_structure s fs)) := by
  refine ⟨?_, ?_, ?_, ?_, ?_, ?_, ?_⟩
  · intro src msg hrem hclone
    rw [copy_from_source]
    dsimp only
    rw [if_pos hrem, hclone]
  · intro src tree hrem hclone
    rw [copy_from_source]
    dsimp only
    rw [if_pos hrem, hclone]
  · intro src hrem habs
    rw [copy_from_source]
    dsimp only
    rw [if_neg (by rw [hrem]; simp), if_pos (by rw [habs]; rfl)]
  · intro src hrem hpre hsub
    rw [copy_from_source]
    dsimp only
    rw [if_neg (by rw [hrem]; simp), if_neg (by rw [hpre]; simp), if_pos hsub]
  · intro src hrem hpre hsub
    rw [copy_from_source]
    dsimp only
    rw [if_neg (by rw [hrem]; simp), if_neg (by rw [hpre]; simp),
      if_neg (by rw [hsub]; simp)]
  · intro hnone
    rw [install_claude_tasks]
    rw [hnone]
  · intro src hsrc hrem hctmiss hle habs
    have hcond : (!pathExists fs (claude_tasks_dir s) || s.force) = true := by
      rw [hctmiss]; rfl
    have habs' : pathExists (create_directory_structure s fs) (strToPath src) = false := by
      rw [pathExists_create_directory_structure hle, habs]
    unfold run
    dsimp only
    rw [if_pos hcond, install_claude_tasks]
    rw [hsrc]
    dsimp only
    rw [copy_from_source]
    dsimp only
    rw [if_neg (by rw [hrem]; simp), if_pos (by rw [habs']; rfl)]

/-- Witness for C5: each branch of the priority order at a concrete input —
failing clone, successful clone, missing local source (function- and
run-level), local source with and without a `claude_tasks` subdirectory, and
no source at all. -/
theorem C5_witness :
    (copy_from_source c5env c5setup c5fsEmpty "git@example.com:claude_init" =
        .error (.cloneFailed "remote not reachable",
          cleanupTemp c5env.tempDir (mkdirD c5fsEmpty c5env.tempDir))) ∧
      (copy_from_source c5env c5setup c5fsEmpty "https://example.com/claude_init.git" =
        .ok (cleanupTemp c5env.tempDir
          (copy_files c5env c5setup
            (removeGitMeta c5env.tempDir (plantTree c5env.tempDir
              ([(["claude_tasks", "QUICK_REFERENCE.md"], "cloned quick reference\n")],
               [["claude_tasks"], ["claude_tasks", "active"]])
              (mkdirD c5fsEmpty c5env.tempDir)))
            (c5env.tempDir ++ ["claude_tasks"])))) ∧
      (copy_from_source c5env c5setup c5fs "missing" =
        .error (.sourceNotFound ["missing"], c5fs)) ∧
      (copy_from_source c5env c5setup c5fs "srcdir" =
        .ok (copy_files c5env c5setup c5fs ["srcdir", "claude_tasks"])) ∧
      (copy_from_source c5env c5setup c5fs "plain" =
        .ok (copy_files c5env c5setup c5fs ["plain"])) ∧
      (install_claude_tasks c5env c5setupNone c5fsEmpty =
        .ok (create_from_templates c5env c5setupNone
          (create_directory_structure c5setupNone c5fsEmpty))) ∧
      (run c5env c5setupMissing c5fsEmpty =
        .error (.sourceNotFound ["missing"],
          create_directory_structure c5setupMissing c5fsEmpty)) :=
  ⟨(C5_source_acquisition c5env c5setup c5fsEmpty).1 "git@example.com:claude_init"
     "remote not reachable" (by decide) rfl,
   (C5_source_acquisition c5env c5setup c5fsEmpty).2.1 "https://example.com/claude_init.git"
     ([(["claude_tasks", "QUICK_REFERENCE.md"], "cloned quick reference\n")],
      [["claude_tasks"], ["claude_tasks", "active"]]) (by decide) rfl,
   (C5_source_acquisition c5env c5setup c5fs).2.2.1 "missing" (by decide) (by decide),
   (C5_source_acquisition c5env c5setup c5fs).2.2.2.1 "srcdir" (by decide) (by decide)
     (by decide),
   (C5_source_acquisition c5env c5setup c5fs).2.2.2.2.1 "plain" (by decide) (by decide)
     (by decide),
   (C5_source_acquisition c5env c5setupNone c5fsEmpty).2.2.2.2.2.1 rfl,
   (C5_source_acquisition c5env c5setupMissing c5fsEmpty).2.2.2.2.2.2 "missing" rfl
     (by decide) (by decide) (by decide) (by decide)⟩

/-- C6: with no source and a target holding nothing at or below
`claude_tasks/`, the template-creation step of `run` (the `s.source = none`
branch of the claude-tasks installation, cf.
`C5_source_acquisition`) creates exactly the three directories
`claude_tasks/`, `claude_tasks/active/`, `claude_tasks/finished/` and the
three embedded files, with every `[DATE]` token replaced by the clock's
`YYYY-MM-DD` date (`env.today`): the quick-reference and principles templates
contain none and are written verbatim, the active-tasks file has its single
token replaced. -/
theorem C6_no_source_creates_exactly_templates (env : Env) (s : ClaudeTasksSetup) (fs : FS)
    (hclean : noTracesUnder fs (claude_tasks_dir s) = true) :
    create_from_templates env s (create_directory_structure s fs) =
      ⟨(claude_tasks_dir s ++ ["active", "ACTIVE_TASKS.md"],
          ACTIVE_TASKS_before_date ++ (env.today ++ ACTIVE_TASKS_after_date)) ::
        (claude_tasks_dir s ++ ["PRINCIPLES_QUICK_CARD.md"], PRINCIPLES_QUICK_CARD_content) ::
        (claude_tasks_dir s ++ ["QUICK_REFERENCE.md"], QUICK_REFERENCE_content) :: fs.files,
       (claude_tasks_dir s ++ ["finished"]) :: (claude_tasks_dir s ++ ["active"]) ::
        claude_tasks_dir s :: fs.dirs⟩ := by
  obtain ⟨fsf, fsd⟩ := fs
  rw [noTracesUnder, Bool.and_eq_true] at hclean
  obtain ⟨hfA, hdA⟩ := hclean
  have hlook : ∀ q, pathLE (claude_tasks_dir s) q = true → lookupFile fsf q = none := by
    intro q hq
    apply lookupFile_eq_none
    intro e he hek
    have h' := List.all_eq_true.mp hfA e he
    rw [hek, hq] at h'
    exact absurd h' (by decide)
  have hmem : ∀ q, pathLE (claude_tasks_dir s) q = true → pathMem q fsd = false := by
    intro q hq
    apply pathMem_eq_false
    intro d hd hek
    have h' := List.all_eq_true.mp hdA d hd
    rw [hek, hq] at h'
    exact absurd h' (by decide)
  have hrk : ∀ q, pathLE (claude_tasks_dir s) q = true → removeKey fsf q = fsf := by
    intro q hq
    apply removeKey_of_forall_ne
    intro e he hek
    have h' := List.all_eq_true.mp hfA e he
    rw [hek, hq] at h'
    exact absurd h' (by decide)
  have e0 : pathExists ⟨fsf, fsd⟩ (claude_tasks_dir s) = false :=
    pathExists_mk_false (hlook _ (pathLE_refl _)) (hmem _ (pathLE_refl _))
  have eA : pathExists ⟨fsf, claude_tasks_dir s :: fsd⟩
      (claude_tasks_dir s ++ ["active"]) = false :=
    pathExists_mk_false (hlook _ (pathLE_append _ _))
      (by rw [pathMem, decide_eq_false (ne_append_of_lt _ "active"),
        hmem _ (pathLE_append _ _)]; rfl)
  have eF : pathExists ⟨fsf, (claude_tasks_dir s ++ ["active"]) :: claude_tasks_dir s :: fsd⟩
      (claude_tasks_dir s ++ ["finished"]) = false :=
    pathExists_mk_false (hlook _ (pathLE_append _ _))
      (by rw [pathMem, decide_eq_false (append_comp_ne _ (by decide)), pathMem,
        decide_eq_false (ne_append_of_lt _ "finished"), hmem _ (pathLE_append _ _)]; rfl)
  have h1 : create_directory_structure s ⟨fsf, fsd⟩ =
      ⟨fsf, (claude_tasks_dir s ++ ["finished"]) :: (claude_tasks_dir s ++ ["active"]) ::
        claude_tasks_dir s :: fsd⟩ := by
    rw [create_directory_structure, mkdirD_mk_not_exists e0, mkdirD_mk_not_exists eA,
      mkdirD_mk_not_exists eF]
  have htt1 : template_target s "QUICK_REFERENCE.md" =
      claude_tasks_dir s ++ ["QUICK_REFERENCE.md"] := by
    rw [template_target, if_neg (by decide)]
  have htt2 : template_target s "PRINCIPLES_QUICK_CARD.md" =
      claude_tasks_dir s ++ ["PRINCIPLES_QUICK_CARD.md"] := by
    rw [template_target, if_neg (by decide)]
  have htt3 : template_target s "ACTIVE_TASKS.md" =
      claude_tasks_dir s ++ ["active", "ACTIVE_TASKS.md"] := by
    rw [template_target, if_pos rfl]
  have pmQ : pathMem (claude_tasks_dir s ++ ["QUICK_REFERENCE.md"])
      ((claude_tasks_dir s ++ ["finished"]) :: (claude_tasks_dir s ++ ["active"]) ::
        claude_tasks_dir s :: fsd) = false := by
    rw [pathMem, decide_eq_false (append_comp_ne _ (by decide)), pathMem,
      decide_eq_false (append_comp_ne _ (by decide)), pathMem,
      decide_eq_false (ne_append_of_lt _ "QUICK_REFERENCE.md"),
      hmem _ (pathLE_append _ _)]
    rfl
  have hst1 : create_template_step env s
      ⟨fsf, (claude_tasks_dir s ++ ["finished"]) :: (claude_tasks_dir s ++ ["active"]) ::
        claude_tasks_dir s :: fsd⟩ ("QUICK_REFERENCE.md", QUICK_REFERENCE_content) =
      ⟨(claude_tasks_dir s ++ ["QUICK_REFERENCE.md"], QUICK_REFERENCE_content) :: fsf,
        (claude_tasks_dir s ++ ["finished"]) :: (claude_tasks_dir s ++ ["active"]) ::
        claude_tasks_dir s :: fsd⟩ := by
    rw [create_template_step]
    dsimp only
    rw [htt1, pathExists_mk_false (hlook _ (pathLE_append _ _)) pmQ]
    rw [if_neg (by simp), pyReplace_QUICK, writeText_mk, hrk _ (pathLE_append _ _)]
  have pmP : pathMem (claude_tasks_dir s ++ ["PRINCIPLES_QUICK_CARD.md"])
      ((claude_tasks_dir s ++ ["finished"]) :: (claude_tasks_dir s ++ ["active"]) ::
        claude_tasks_dir s :: fsd) = false := by
    rw [pathMem, decide_eq_false (append_comp_ne _ (by decide)), pathMem,
      decide_eq_false (append_comp_ne _ (by decide)), pathMem,
      decide_eq_false (ne_append_of_lt _ "PRINCIPLES_QUICK_CARD.md"),
      hmem _ (pathLE_append _ _)]
    rfl
  have hlP : lookupFile
      ((claude_tasks_dir s ++ ["QUICK_REFERENCE.md"], QUICK_REFERENCE_content) :: fsf)
      (claude_tasks_dir s ++ ["PRINCIPLES_QUICK_CARD.md"]) = none := by
    rw [lookupFile, if_neg (append_comp_ne _ (by decide)), hlook _ (pathLE_append _ _)]
  have hst2 : create_template_step env s
      ⟨(claude_tasks_dir s ++ ["QUICK_REFERENCE.md"], QUICK_REFERENCE_content) :: fsf,
        (claude_tasks_dir s ++ ["finished"]) :: (claude_tasks_dir s ++ ["active"]) ::
        claude_tasks_dir s :: fsd⟩ ("PRINCIPLES_QUICK_CARD.md", PRINCIPLES_QUICK_CARD_content) =
      ⟨(claude_tasks_dir s ++ ["PRINCIPLES_QUICK_CARD.md"], PRINCIPLES_QUICK_CARD_content) ::
        (claude_tasks_dir s ++ ["QUICK_REFERENCE.md"], QUICK_REFERENCE_content) :: fsf,
        (claude_tasks_dir s ++ ["finished"]) :: (claude_tasks_dir s ++ ["active"]) ::
        claude_tasks_dir s :: fsd⟩ := by
    rw [create_template_step]
    dsimp only
    rw [htt2, pathExists_mk_false hlP pmP]
    rw [if_neg (by simp), pyReplace_PRINCIPLES, writeText_mk]
    rw [removeKey, if_neg (append_comp_ne _ (by decide)), hrk _ (pathLE_append _ _)]
  have pmA : pathMem (claude_tasks_dir s ++ ["active", "ACTIVE_TASKS.md"])
      ((claude_tasks_dir s ++ ["finished"]) :: (claude_tasks_dir s ++ ["active"]) ::
        claude_tasks_dir s :: fsd) = false := by
    rw [pathMem, decide_eq_false (append_comp_ne _ (by decide)), pathMem,
      decide_eq_false (append_comp_ne _ (by decide)), pathMem,
      decide_eq_false (fun he => by
        have := congrArg List.length he
        simp at this),
      hmem _ (pathLE_append _ _)]
    rfl
  have hlA : lookupFile
      ((claude_tasks_dir s ++ ["PRINCIPLES_QUICK_CARD.md"], PRINCIPLES_QUICK_CARD_content) ::
        (claude_tasks_dir s ++ ["QUICK_REFERENCE.md"], QUICK_REFERENCE_content) :: fsf)
      (claude_tasks_dir s ++ ["active", "ACTIVE_TASKS.md"]) = none := by
    rw [lookupFile, if_neg (append_comp_ne _ (by decide)), lookupFile,
      if_neg (append_comp_ne _ (by decide)), hlook _ (pathLE_append _ _)]
  have hst3 : create_template_step env s
      ⟨(claude_tasks_dir s ++ ["PRINCIPLES_QUICK_CARD.md"], PRINCIPLES_QUICK_CARD_content) ::
        (claude_tasks_dir s ++ ["QUICK_REFERENCE.md"], QUICK_REFERENCE_content) :: fsf,
        (claude_tasks_dir s ++ ["finished"]) :: (claude_tasks_dir s ++ ["active"]) ::
        claude_tasks_dir s :: fsd⟩ ("ACTIVE_TASKS.md", ACTIVE_TASKS_content) =
      ⟨(claude_tasks_dir s ++ ["active", "ACTIVE_TASKS.md"],
          ACTIVE_TASKS_before_date ++ (env.today ++ ACTIVE_TASKS_after_date)) ::
        (claude_tasks_dir s ++ ["PRINCIPLES_QUICK_CARD.md"], PRINCIPLES_QUICK_CARD_content) ::
        (claude_tasks_dir s ++ ["QUICK_REFERENCE.md"], QUICK_REFERENCE_content) :: fsf,
        (claude_tasks_dir s ++ ["finished"]) :: (claude_tasks_dir s ++ ["active"]) ::
        claude_tasks_dir s :: fsd⟩ := by
    rw [create_template_step]
    dsimp only
    rw [htt3, pathExists_mk_false hlA pmA]
    rw [if_neg (by simp), pyReplace_ACTIVE, writeText_mk]
    rw [removeKey, if_neg (append_comp_ne _ (by decide)), removeKey,
      if_neg (append_comp_ne _ (by decide)), hrk _ (pathLE_append _ _)]
  rw [h1, create_from_templates, EMBEDDED_TEMPLATES]
  simp only [List.foldl_cons, List.foldl_nil]
  rw [hst1, hst2, hst3]

/-- C7: for a remote source the scratch clone directory (freshly allocated by
`mkdtemp`, hence not previously existing) holds no file and no directory once
`_copy_from_source` returns — on the success path and on the error path alike
— and a clone failure still propagates as a fatal error after the cleanup. -/
theorem C7_scratch_clone_always_removed (env : Env) (s : ClaudeTasksSetup) (fs : FS)
    (src : String) (hrem : isRemoteSource src = true)
    (hfresh : pathExists fs env.tempDir = false) :
    noTracesUnder (resultFS (copy_from_source env s fs src)) env.tempDir = true ∧
      (∀ msg, env.cloneRepo src = .error msg →
        exceptOk (copy_from_source env s fs src) = false) := by
  obtain ⟨fsf, fsd⟩ := fs
  have hmk : mkdirD ⟨fsf, fsd⟩ env.tempDir = ⟨fsf, env.tempDir :: fsd⟩ :=
    mkdirD_mk_not_exists hfresh
  have hm1 : pathMem env.tempDir (env.tempDir :: fsd) = true := by
    rw [pathMem]; simp
  have hp1 : pathExists ⟨fsf, env.tempDir :: fsd⟩ env.tempDir = true := by
    rw [pathExists]
    show (isFileB ⟨fsf, env.tempDir :: fsd⟩ env.tempDir || pathMem env.tempDir
      (env.tempDir :: fsd)) = true
    rw [hm1, Bool.or_true]
  constructor
  · rw [copy_from_source]
    dsimp only
    rw [if_pos hrem, hmk]
    cases hclone : env.cloneRepo src with
    | error msg =>
      show noTracesUnder (resultFS (Except.error (SetupError.cloneFailed msg,
        cleanupTemp env.tempDir ⟨fsf, env.tempDir :: fsd⟩))) env.tempDir = true
      exact cleanupTemp_noTraces hp1
    | ok tree =>
      have hp2 : pathMem env.tempDir
          (plantTree env.tempDir tree ⟨fsf, env.tempDir :: fsd⟩).dirs = true :=
        plantTree_pathMem tree hm1
      have hp3 : pathMem env.tempDir
          (removeGitMeta env.tempDir (plantTree env.tempDir tree
            ⟨fsf, env.tempDir :: fsd⟩)).dirs = true := by
        rw [removeGitMeta]
        split
        · show pathMem env.tempDir (dirsOutside _ _) = true
          rw [pathMem_dirsOutside (pathLE_strict_ext_false env.tempDir ".git")]
          exact hp2
        · exact hp2
      have hp4 : pathExists (copy_files env s
          (removeGitMeta env.tempDir (plantTree env.tempDir tree
            ⟨fsf, env.tempDir :: fsd⟩)) (env.tempDir ++ ["claude_tasks"]))
          env.tempDir = true := by
        rw [pathExists, copy_files_dirs, hp3, Bool.or_true]
      exact cleanupTemp_noTraces hp4
  · intro msg hclone
    rw [copy_from_source]
    dsimp only
    rw [if_pos hrem, hclone]
    rfl

/-- Witness for C7: a successful clone and a failing clone, both leaving no
trace of the scratch directory. -/
theorem C7_witness :
    noTracesUnder (resultFS (copy_from_source c5env c5setup c5fsEmpty
        "https://example.com/claude_init.git")) c5env.tempDir = true ∧
      noTracesUnder (resultFS (copy_from_source c5env c5setup c5fsEmpty
        "git@example.com:claude_init")) c5env.tempDir = true ∧
      exceptOk (copy_from_source c5env c5setup c5fsEmpty "git@example.com:claude_init") =
        false :=
  ⟨(C7_scratch_clone_always_removed c5env c5setup c5fsEmpty
      "https://example.com/claude_init.git" (by decide) (by decide)).1,
   (C7_scratch_clone_always_removed c5env c5setup c5fsEmpty
      "git@example.com:claude_init" (by decide) (by decide)).1,
   (C7_scratch_clone_always_removed c5env c5setup c5fsEmpty
      "git@example.com:claude_init" (by decide) (by decide)).2 "remote not reachable" rfl⟩

/-- C9: when a dashboard directory already exists at the destination,
`_copy_test_dashboard` deletes the whole destination tree before copying: a
destination file whose corresponding source file does not exist is gone after
the call (no merge), and nothing outside the destination directory is touched
(in particular no backup of the old tree is made anywhere). -/
theorem C9_dashboard_reinstall_destroys_destination (fs : FS)
    (source_dir target_dir : Path) (hex : pathExists fs target_dir = true) :
    (∀ q, pathLE target_dir q = true →
      isFileB fs (source_dir ++ q.drop target_dir.length) = false →
      isFileB (copy_test_dashboard fs source_dir target_dir) q = false) ∧
    (∀ q, pathLE target_dir q = false →
      lookupFile (copy_test_dashboard fs source_dir target_dir).files q =
        lookupFile fs.files q) := by
  constructor
  · intro q hq hsrcmiss
    have hsrcnone : lookupFile fs.files (source_dir ++ q.drop target_dir.length) = none := by
      rw [isFileB] at hsrcmiss
      exact Option.not_isSome_iff_eq_none.mp (by rw [hsrcmiss]; simp)
    have hold : lookupFile (rmtree fs target_dir).files q = none :=
      lookupFile_filesOutside_under hq
    have hsrc1 : lookupFile (rmtree fs target_dir).files
        (source_dir ++ q.drop target_dir.length) = none :=
      lookupFile_none_filesOutside hsrcnone
    have hreloc : lookupFile (relocFiles (rmtree fs target_dir).files source_dir target_dir)
        q = none := by
      cases hr : lookupFile (relocFiles (rmtree fs target_dir).files source_dir target_dir) q
        with
      | none => rfl
      | some c =>
        have := @relocFiles_lookup_isSome (rmtree fs target_dir).files source_dir target_dir
          q (by rw [hr]; rfl)
        rw [hsrc1] at this
        simp at this
    have hcopy : lookupFile (copytree (rmtree fs target_dir) source_dir target_dir).files
        q = none := by
      rw [copytree]
      show lookupFile (relocFiles (rmtree fs target_dir).files source_dir target_dir ++
        (rmtree fs target_dir).files) q = none
      rw [lookupFile_append, hreloc]
      exact hold
    rw [copy_test_dashboard]
    rw [if_pos hex, isFileB,
      removeItem_lookup_none (removeItem_lookup_none hcopy)]
    rfl
  · intro q hq
    exact copy_test_dashboard_lookup_frame hq

/-- Witness for C9: the stale destination file disappears although the run
succeeds, and a path outside the dashboard directory is untouched. -/
theorem C9_witness :
    pathExists c9fs (["proj"] ++ ["test-dashboard-module"]) = true ∧
      pathLE (["proj"] ++ ["test-dashboard-module"])
        ["proj", "test-dashboard-module", "stale.js"] = true ∧
      isFileB c9fs (["src", "test-dashboard-module"] ++ ["stale.js"]) = false ∧
      isFileB (copy_test_dashboard c9fs (["src", "test-dashboard-module"])
        (["proj"] ++ ["test-dashboard-module"])) ["proj", "test-dashboard-module", "stale.js"] =
        false ∧
      lookupFile (copy_test_dashboard c9fs (["src", "test-dashboard-module"])
          (["proj"] ++ ["test-dashboard-module"])).files ["proj", "CLAUDE.md.backup"] =
        lookupFile c9fs.files ["proj", "CLAUDE.md.backup"] :=
  ⟨by decide, by decide, by decide,
   (C9_dashboard_reinstall_destroys_destination c9fs ["src", "test-dashboard-module"]
      (["proj"] ++ ["test-dashboard-module"]) (by decide)).1
     ["proj", "test-dashboard-module", "stale.js"] (by decide) (by decide),
   (C9_dashboard_reinstall_destroys_destination c9fs ["src", "test-dashboard-module"]
      (["proj"] ++ ["test-dashboard-module"]) (by decide)).2
     ["proj", "CLAUDE.md.backup"] (by decide)⟩

/-- Counterexample to C8 as stated: a remote source whose clone does contain a
`CLAUDE.md` template, yet the created guidance file is the embedded default
text, not a verbatim copy of the template. -/
theorem C8_counterexample :
    c8env.cloneRepo "https://example.com/claude_init.git" =
        .ok ([(["CLAUDE.md"], "# Custom guidance from the repo\n"),
              (["claude_tasks", "QUICK_REFERENCE.md"], "cloned qr\n")],
             [["claude_tasks"], ["claude_tasks", "active"]]) ∧
      exceptOk (run c8env c8setup c8fs) = true ∧
      lookupFile (resultFS (run c8env c8setup c8fs)).files (claude_md_path c8setup) =
        some claude_md_template ∧
      claude_md_template ≠ "# Custom guidance from the repo\n" :=
  ⟨rfl, rfl, rfl, by decide⟩

/-- C8 (amended): `_create_new_claude_md` copies a `CLAUDE.md` found at the
source root verbatim only for local path sources; for remote-URL sources the
template lookup is skipped altogether (`# Would need to clone again, skip for
now`), so the embedded default text is used even when the clone held a
template; with no source, or a local source without the template, the
embedded default is likewise used. -/
theorem C8_create_new_claude_md_cases (s : ClaudeTasksSetup) (fs : FS) :
    (∀ src c, s.source = some src → isRemoteSource src = false →
      lookupFile fs.files (strToPath src ++ ["CLAUDE.md"]) = some c →
      create_new_claude_md s fs = writeText fs (claude_md_path s) c) ∧
    (∀ src, s.source = some src → isRemoteSource src = true →
      create_new_claude_md s fs = writeText fs (claude_md_path s) claude_md_template) ∧
    (∀ src, s.source = some src → isRemoteSource src = false →
      pathExists fs (strToPath src ++ ["CLAUDE.md"]) = false →
      create_new_claude_md s fs = writeText fs (claude_md_path s) claude_md_template) ∧
    (s.source = none →
      create_new_claude_md s fs = writeText fs (claude_md_path s) claude_md_template) := by
  refine ⟨?_, ?_, ?_, ?_⟩
  · intro src c hsrc hrem hc
    have hex : pathExists fs (strToPath src ++ ["CLAUDE.md"]) = true := by
      rw [pathExists, isFileB, hc]
      rfl
    rw [create_new_claude_md, hsrc]
    dsimp only
    rw [if_neg (by rw [hrem]; simp), if_pos hex]
    dsimp only
    rw [if_pos hex, copy2, hc]
  · intro src hsrc hrem
    rw [create_new_claude_md, hsrc]
    dsimp only
    rw [if_pos hrem]
  · intro src hsrc hrem hex
    rw [create_new_claude_md, hsrc]
    dsimp only
    rw [if_neg (by rw [hrem]; simp), if_neg (by rw [hex]; simp)]
  · intro hnone
    rw [create_new_claude_md, hnone]

/-- Witness for C8 (amended): the local-source verbatim copy, the remote-source
embedded default, and the no-source embedded default at concrete inputs. -/
theorem C8_witness :
    (create_new_claude_md c8localsetup c8localfs =
        writeText c8localfs (claude_md_path c8localsetup) "# Local template\n") ∧
      (create_new_claude_md c8setup c8fs =
        writeText c8fs (claude_md_path c8setup) claude_md_template) ∧
      (create_new_claude_md c5setupNone c8fs =
        writeText c8fs (claude_md_path c5setupNone) claude_md_template) :=
  ⟨(C8_create_new_claude_md_cases c8localsetup c8localfs).1 "srcdir" "# Local template\n"
     rfl (by decide) rfl,
   (C8_create_new_claude_md_cases c8setup c8fs).2.1 "https://example.com/claude_init.git"
     rfl (by decide),
   (C8_create_new_claude_md_cases c5setupNone c8fs).2.2.2 rfl⟩

/-- Witness for C6: the exact file set created on a fresh target with the
fixed clock. -/
theorem C6_witness :
    noTracesUnder c6fs (claude_tasks_dir c6setup) = true ∧
      create_from_templates offlineEnv c6setup (create_directory_structure c6setup c6fs) =
        ⟨[(claude_tasks_dir c6setup ++ ["active", "ACTIVE_TASKS.md"],
            ACTIVE_TASKS_before_date ++ ("2026-10-12" ++ ACTIVE_TASKS_after_date)),
          (claude_tasks_dir c6setup ++ ["PRINCIPLES_QUICK_CARD.md"],
            PRINCIPLES_QUICK_CARD_content),
          (claude_tasks_dir c6setup ++ ["QUICK_REFERENCE.md"], QUICK_REFERENCE_content)],
         [claude_tasks_dir c6setup ++ ["finished"], claude_tasks_dir c6setup ++ ["active"],
          claude_tasks_dir c6setup, ["proj"]]⟩ :=
  ⟨by decide, C6_no_source_creates_exactly_templates offlineEnv c6setup c6fs (by decide)⟩

end ClaudeInit
